import Mathlib

/-!
Verification development for the Outlet das Cores CRM adapter.

The repository exposes seven CRM tool handlers over three transports:
the standard-stream variant (`src/index.ts`, suffix `_std` below), the
HTTP variant (`src/server.ts`, suffix `_http`), and the event-stream
variant (the unnamed SSE source file, suffix `_sse`).  All handlers talk
to a relational backend (Supabase); the backend is modelled as an
explicit `Db` state, and every backend round trip a handler performs is
recorded in an operation trace (`List Op`) so that claims about "no
backend call" and "no write attempted" can be stated.

JavaScript data is modelled by `JVal` (JSON values, numbers as exact
decimals `Dec`); JS `undefined` is `Option.none` at use sites.
`Number(...)` coercion is modelled by `jsToNumber` returning
`Option Dec`, where `none` plays the role of NaN (NaN is not
representable in stored JSON, so it only arises from coercion, exactly
as in the source).  `Dec` represents a JSON numeric literal
`mant * 10 ^ (- exp)` exactly; the additions performed by this system
(pipeline totals) are exact on JS doubles in the intended value range,
so exact decimal arithmetic is a faithful model.
-/

/-- An exact decimal number `mant * 10 ^ (- exp)`, the value of a JSON
numeric literal. -/
structure Dec where
  mant : Int
  exp : Nat
deriving DecidableEq, Repr

/-- The decimal value of an integer. -/
def Dec.ofInt (n : Int) : Dec := ⟨n, 0⟩

instance : OfNat Dec n := ⟨Dec.ofInt n⟩

/-- Whether a decimal is zero (JS falsy test for numbers). -/
def Dec.isZero (d : Dec) : Bool := d.mant == 0

/-- Exact addition of decimals. -/
def Dec.add (a b : Dec) : Dec :=
  let e := max a.exp b.exp
  ⟨a.mant * ((10 : Nat) ^ (e - a.exp) : Nat) + b.mant * ((10 : Nat) ^ (e - b.exp) : Nat), e⟩

/-- Integer floor of a nonnegative decimal, clamped to `Nat`
(used for the row limit of a query). -/
def Dec.toNatFloor (d : Dec) : Nat :=
  (d.mant / ((10 : Nat) ^ d.exp : Nat)).toNat

/-- A JSON value.  Objects are association lists in insertion order,
as produced by `JSON.parse` (keys unique). -/
inductive JVal where
  | null : JVal
  | bool (b : Bool) : JVal
  | num (q : Dec) : JVal
  | str (s : String) : JVal
  | arr (xs : List JVal) : JVal
  | obj (fs : List (String × JVal)) : JVal

/-- A JSON object body: fields in insertion order. -/
abbrev JObj := List (String × JVal)

/-- Property access `o[k]` on a JS object: first binding wins
(JSON objects have unique keys). `none` is JS `undefined`. -/
def jsGet (o : JObj) (k : String) : Option JVal :=
  (o.find? (fun kv => kv.1 == k)).map (fun kv => kv.2)

/-- JS truthiness of a value. -/
def jsTruthy : JVal → Bool
  | .null => false
  | .bool b => b
  | .num q => !q.isZero
  | .str s => !(s == "")
  | .arr _ => true
  | .obj _ => true

/-- JS truthiness where `none` is `undefined` (falsy). -/
def optTruthy : Option JVal → Bool
  | none => false
  | some v => jsTruthy v

/-- Whitespace recognised by JS string-to-number trimming. -/
def isWS (c : Char) : Bool :=
  c == ' ' || c == '\t' || c == '\n' || c == '\r'

/-- Drop leading whitespace from a character list. -/
def dropWS : List Char → List Char
  | [] => []
  | c :: cs => if isWS c then dropWS cs else c :: cs

/-- Trim whitespace at both ends of a character list. -/
def trimChars (cs : List Char) : List Char :=
  ((dropWS ((dropWS cs).reverse)).reverse)

/-- Digits of a character list as a natural number, `none` when a
character is not a decimal digit or the list is empty. -/
def decDigits? : List Char → Option Nat
  | [] => none
  | cs => cs.foldl (fun acc c =>
      match acc with
      | none => none
      | some n => if c.isDigit then some (n * 10 + (c.toNat - '0'.toNat)) else none)
      (some 0)

/-- Split a character list at occurrences of `'.'`. -/
def splitOnDot : List Char → List (List Char)
  | [] => [[]]
  | c :: cs =>
    let r := splitOnDot cs
    if c == '.' then [] :: r
    else
      match r with
      | h :: t => (c :: h) :: t
      | [] => [[c]]

/-- The JS `Number(string)` coercion on the decimal forms that occur in
this system: optional sign, integer part, optional fractional part;
the empty/whitespace string coerces to 0; anything else is NaN
(`none`).  (Exponent and hex literal forms are not modelled; no stored
value in this system uses them.) -/
def parseJsNumber (s : String) : Option Dec :=
  let t := trimChars s.data
  if t.isEmpty then some 0
  else
    let (sgn, body) : Int × List Char :=
      match t with
      | '-' :: cs => (-1, cs)
      | '+' :: cs => (1, cs)
      | cs => (1, cs)
    match splitOnDot body with
    | [i] =>
      match decDigits? i with
      | some n => some ⟨sgn * n, 0⟩
      | none => none
    | [i, f] =>
      if i.isEmpty && f.isEmpty then none
      else
        let ip : Option Nat := if i.isEmpty then some 0 else decDigits? i
        let fp : Option Nat := if f.isEmpty then some 0 else decDigits? f
        match ip, fp with
        | some n, some m => some ⟨sgn * (n * ((10 : Nat) ^ f.length) + m), f.length⟩
        | _, _ => none
    | _ => none

/-- The JS `Number(value)` coercion; `none` is NaN. -/
def jsToNumber : JVal → Option Dec
  | .null => some 0
  | .bool b => some (if b then 1 else 0)
  | .num q => some q
  | .str s => parseJsNumber s
  | .arr [] => some 0
  | .arr [v] => jsToNumber v
  | .arr (_ :: _ :: _) => none
  | .obj _ => none

/-- NaN-propagating addition on JS numbers. -/
def nanAdd : Option Dec → Option Dec → Option Dec
  | some a, some b => some (a.add b)
  | _, _ => none

/-- The JS object spread `{...old, ...upd}` on JSON objects with unique
keys: keys of `old` keep their slot (values overridden by `upd` where
present), then the keys of `upd` not already in `old` are appended. -/
def mergeObj (old upd : JObj) : JObj :=
  (old.map (fun kv => (kv.1, (jsGet upd kv.1).getD kv.2)))
    ++ upd.filter (fun kv => (jsGet old kv.1).isNone)

/-- Spreading a raw value into an object literal: spreading `undefined`
or `null` contributes nothing; an object contributes its fields.
(Spreading strings/arrays contributes index keys in JS; that exotic
case does not occur here and is modelled as empty.) -/
def jsSpreadObj : Option JVal → JObj
  | some (.obj fs) => fs
  | _ => []

/-- JS `String(value)` conversion as used when supabase-js interpolates
a filter value into the request (e.g. `.eq("id", v)`): `undefined`
serializes as "undefined".  (Non-integer numbers and arrays are
approximated; no claim depends on them.) -/
def jsUrlString : Option JVal → String
  | none => "undefined"
  | some .null => "null"
  | some (.bool true) => "true"
  | some (.bool false) => "false"
  | some (.str s) => s
  | some (.num q) => toString q.mant
  | some (.arr _) => ""
  | some (.obj _) => "[object Object]"

/-- Whether the second character list is an initial segment of the
first. -/
def leadsWith : List Char → List Char → Bool
  | _, [] => true
  | [], _ :: _ => false
  | c :: cs, d :: ds => c == d && leadsWith cs ds

/-- Whether the second character list occurs inside the first. -/
def hasSubChars : List Char → List Char → Bool
  | [], n => n.isEmpty
  | c :: cs, n => leadsWith (c :: cs) n || hasSubChars cs n

/-- Case-insensitive substring test, modelling SQL `ILIKE '%needle%'`. -/
def strContainsCI (hay needle : String) : Bool :=
  hasSubChars (hay.data.map Char.toLower) (needle.data.map Char.toLower)

example : strContainsCI "Tinta Acrilica" "acril" = true := by decide
example : strContainsCI "Branco" "tinta" = false := by decide
example : jsGet [("a", .num 1), ("b", .num 2)] "b" = some (.num 2) := by rfl
example : parseJsNumber "200" = some 200 := by decide
example : parseJsNumber "abc" = none := by decide
example : jsGet (mergeObj [("a", .num 1)] [("a", .num 2), ("b", .num 3)]) "a"
    = some (.num 2) := by rfl

/-! ## Backend data model

The relational backend rows used by the handlers, and the explicit
backend state `Db`.  Row order inside each table is the backend's
physical order (the order an unordered `select` returns). -/

/-- A pipeline stage row (`pipeline_stages`). -/
structure Stage where
  id : Nat
  name : String
  slug : String
  color : String
  position : Nat
deriving DecidableEq, Repr

/-- A seller profile row (`profiles`). -/
structure Profile where
  id : String
  full_name : String
  role : String
deriving DecidableEq, Repr

/-- A lead row (`leads`).  `custom_fields` is the stored JSON object. -/
structure Lead where
  id : String
  name : String
  phone : Option String
  email : Option String
  stage_id : Nat
  vendedor_id : String
  custom_fields : JObj
  notes : Option String
  position : Nat
  created_at : Nat

/-- A price catalog row (`price_catalog`). -/
structure CatalogEntry where
  id : Nat
  product_name : String
  description : String
  category : String
  active : Bool
deriving DecidableEq, Repr

/-- A lead history row (`lead_history`). -/
structure HistoryEntry where
  id : Nat
  lead_id : String
  description : String
  changed_by : String
  created_at : Nat
deriving DecidableEq, Repr

/-- The backend state.  `seq` feeds the backend-generated id and
creation timestamp of an inserted row. -/
structure Db where
  stages : List Stage
  profiles : List Profile
  leads : List Lead
  catalog : List CatalogEntry
  history : List HistoryEntry
  seq : Nat

/-- One backend round trip performed by a handler, in order.  Reads and
writes are distinguished so that "no backend call" and "no write
attempted" claims can be stated. -/
inductive Op where
  | selectStage (slug : String) : Op
  | selectLeads : Op
  | selectLeadCustomFields (id : String) : Op
  | countLeads (stageId : Nat) : Op
  | updateLead (id : String) : Op
  | insertLead : Op
  | selectCatalog : Op
  | selectHistory (id : String) : Op
deriving DecidableEq, Repr

/-- The error taxonomy of the adapter; each constructor carries the
exact thrown message. -/
inductive Err where
  | validation (msg : String) : Err
  | unknownTool (msg : String) : Err
  | stageNotFound (msg : String) : Err
  | leadNotFound (msg : String) : Err
  | backend (msg : String) : Err
deriving DecidableEq, Repr

/-- The PostgREST message produced when `.single()` does not see
exactly one row. -/
def singleRowErrMsg : String :=
  "JSON object requested, multiple (or no) rows returned"

/-- The output of one handler run: result or error, the backend state
afterwards, and the trace of backend calls made. -/
abbrev HOut (α : Type) : Type := Except Err α × Db × List Op

/-- `select ... .eq("slug", slug).single()` on `pipeline_stages`:
the stage when exactly one row matches, otherwise `none`. -/
def singleStage (db : Db) (slug : String) : Option Stage :=
  match db.stages.filter (fun st => st.slug == slug) with
  | [st] => some st
  | _ => none

/-- `select ... .eq("id", id).single()` on `leads`. -/
def singleLead (db : Db) (id : String) : Option Lead :=
  match db.leads.filter (fun l => l.id == id) with
  | [l] => some l
  | _ => none

/-- `update(...).eq("id", id).select().single()` on `leads`: every
matching row is rewritten through `f`; the returned row is the updated
row when exactly one matched (otherwise `.single()` yields an error and
the first component is `none`). -/
def dbUpdateLead (db : Db) (id : String) (f : Lead → Lead) : Option Lead × Db :=
  (match db.leads.filter (fun l => l.id == id) with
   | [l] => some (f l)
   | _ => none,
   { db with leads := db.leads.map (fun l => if l.id == id then f l else l) })

/-- `select("*", count exact).eq("stage_id", sid)`: the number of leads
in a stage. -/
def countLeadsInStage (db : Db) (sid : Nat) : Nat :=
  (db.leads.filter (fun l => l.stage_id == sid)).length

/-- Stable insertion into a list sorted descending by `key`. -/
def insertByDesc (key : α → Nat) (x : α) : List α → List α
  | [] => [x]
  | y :: ys => if key y ≥ key x then y :: insertByDesc key x ys else x :: y :: ys

/-- Stable sort, descending by `key` (models `order(col, descending)`).
-/
def sortByDesc (key : α → Nat) (xs : List α) : List α :=
  xs.foldr (insertByDesc key) []

/-- The joined view returned by `get_leads`: the lead row plus the
embedded `stage (name, slug, color)` and `vendedor (full_name, role)`
rows. -/
structure LeadView where
  lead : Lead
  stage : Option (String × String × String)
  vendedor : Option (String × String)

/-- Build the `get_leads` joined view of one lead. -/
def leadView (db : Db) (l : Lead) : LeadView :=
  ⟨l,
   (db.stages.find? (fun st => st.id == l.stage_id)).map (fun st => (st.name, st.slug, st.color)),
   (db.profiles.find? (fun p => p.id == l.vendedor_id)).map (fun p => (p.full_name, p.role))⟩

/-- The embedded `stage (name, slug)` join used by `update_lead_stage`
in the standard-stream and HTTP variants. -/
def stageNS (db : Db) (l : Lead) : Option (String × String) :=
  (db.stages.find? (fun st => st.id == l.stage_id)).map (fun st => (st.name, st.slug))

/-! ## Tool input schemas (zod model)

The standard-stream and event-stream variants validate call arguments
with zod object schemas before the handler runs.  The parsers below
model those schemas: required/optional fields, type checks, defaults,
and stripping of unknown keys (a zod object keeps only declared keys).
zod aggregates all issues into one error; the model reports the first
failing field, which is faithful for "fails with ValidationError". -/

/-- The zod `z.string().uuid()` format check, modelled as the shape the
zod regex enforces: 36 characters, dashes at positions 8, 13, 18 and
23, hexadecimal digits elsewhere. -/
def isUuid (s : String) : Bool :=
  let cs := s.data
  cs.length == 36 &&
    (List.range 36).all (fun i =>
      if i == 8 || i == 13 || i == 18 || i == 23 then cs.getD i ' ' == '-'
      else
        let c := cs.getD i ' '
        c.isDigit || ('a' ≤ c && c ≤ 'f') || ('A' ≤ c && c ≤ 'F'))

/-- The zod `z.string().email()` check, modelled as containing `'@'`
(the claims never depend on the precise email grammar). -/
def isEmailShape (s : String) : Bool := s.data.contains '@'

/-- Parse an optional string field. -/
def fieldOptStr (args : JObj) (k : String) : Except Err (Option String) :=
  match jsGet args k with
  | none => .ok none
  | some (.str s) => .ok (some s)
  | some _ => .error (.validation ("Expected string, received other: " ++ k))

/-- Parse a required string field. -/
def fieldReqStr (args : JObj) (k : String) : Except Err String :=
  match jsGet args k with
  | none => .error (.validation ("Required: " ++ k))
  | some (.str s) => .ok s
  | some _ => .error (.validation ("Expected string, received other: " ++ k))

/-- Parse a required uuid-string field. -/
def fieldReqUuid (args : JObj) (k : String) : Except Err String :=
  match fieldReqStr args k with
  | .error e => .error e
  | .ok s => if isUuid s then .ok s else .error (.validation ("Invalid uuid: " ++ k))

/-- Parse an optional uuid-string field. -/
def fieldOptUuid (args : JObj) (k : String) : Except Err (Option String) :=
  match fieldOptStr args k with
  | .error e => .error e
  | .ok none => .ok none
  | .ok (some s) => if isUuid s then .ok (some s) else .error (.validation ("Invalid uuid: " ++ k))

/-- Parse an optional email-string field. -/
def fieldOptEmail (args : JObj) (k : String) : Except Err (Option String) :=
  match fieldOptStr args k with
  | .error e => .error e
  | .ok none => .ok none
  | .ok (some s) => if isEmailShape s then .ok (some s) else .error (.validation ("Invalid email: " ++ k))

/-- Parse an optional number field with a zod default. -/
def fieldNumD (args : JObj) (k : String) (d : Dec) : Except Err Dec :=
  match jsGet args k with
  | none => .ok d
  | some (.num q) => .ok q
  | some _ => .error (.validation ("Expected number, received other: " ++ k))

/-- Parse a required `z.record(z.unknown())` field (a JSON object). -/
def fieldReqRecord (args : JObj) (k : String) : Except Err JObj :=
  match jsGet args k with
  | none => .error (.validation ("Required: " ++ k))
  | some (.obj fs) => .ok fs
  | some _ => .error (.validation ("Expected object, received other: " ++ k))

/-- Parse an optional `z.record(z.unknown())` field. -/
def fieldOptRecord (args : JObj) (k : String) : Except Err (Option JObj) :=
  match jsGet args k with
  | none => .ok none
  | some (.obj fs) => .ok (some fs)
  | some _ => .error (.validation ("Expected object, received other: " ++ k))

/-- `GetLeadsSchema`: optional stage slug, optional vendedor uuid,
limit defaulting to 50. -/
structure GetLeadsParams where
  stage_slug : Option String
  vendedor_id : Option String
  limit : Dec

/-- `UpdateLeadStageSchema`: required lead uuid and stage slug. -/
structure UpdateLeadStageParams where
  lead_id : String
  new_stage_slug : String

/-- `UpdateLeadCustomFieldsSchema`: required lead uuid and update
object. -/
structure UpdateLeadCustomFieldsParams where
  lead_id : String
  custom_fields : JObj

/-- `CreateLeadSchema`: required name and vendedor uuid; optional
phone, email, custom fields and notes; stage slug defaulting to
"lead". -/
structure CreateLeadParams where
  name : String
  phone : Option String
  email : Option String
  stage_slug : String
  vendedor_id : String
  custom_fields : Option JObj
  notes : Option String

/-- `SearchPriceCatalogSchema`: required query, optional category,
limit defaulting to 10. -/
structure SearchPriceCatalogParams where
  query : String
  category : Option String
  limit : Dec

/-- `GetLeadHistorySchema`: required lead uuid. -/
structure GetLeadHistoryParams where
  lead_id : String

/-- `GetLeadsSchema.parse`. -/
def parseGetLeads (args : JObj) : Except Err GetLeadsParams :=
  match fieldOptStr args "stage_slug" with
  | .error e => .error e
  | .ok slug =>
    match fieldOptUuid args "vendedor_id" with
    | .error e => .error e
    | .ok v =>
      match fieldNumD args "limit" 50 with
      | .error e => .error e
      | .ok lim => .ok ⟨slug, v, lim⟩

/-- `UpdateLeadStageSchema.parse`. -/
def parseUpdateLeadStage (args : JObj) : Except Err UpdateLeadStageParams :=
  match fieldReqUuid args "lead_id" with
  | .error e => .error e
  | .ok id =>
    match fieldReqStr args "new_stage_slug" with
    | .error e => .error e
    | .ok slug => .ok ⟨id, slug⟩

/-- `UpdateLeadCustomFieldsSchema.parse`. -/
def parseUpdateLeadCustomFields (args : JObj) : Except Err UpdateLeadCustomFieldsParams :=
  match fieldReqUuid args "lead_id" with
  | .error e => .error e
  | .ok id =>
    match fieldReqRecord args "custom_fields" with
    | .error e => .error e
    | .ok cf => .ok ⟨id, cf⟩

/-- `CreateLeadSchema.parse`. -/
def parseCreateLead (args : JObj) : Except Err CreateLeadParams :=
  match fieldReqStr args "name" with
  | .error e => .error e
  | .ok nm =>
    match fieldOptStr args "phone" with
    | .error e => .error e
    | .ok ph =>
      match fieldOptEmail args "email" with
      | .error e => .error e
      | .ok em =>
        match fieldOptStr args "stage_slug" with
        | .error e => .error e
        | .ok slug? =>
          match fieldReqUuid args "vendedor_id" with
          | .error e => .error e
          | .ok v =>
            match fieldOptRecord args "custom_fields" with
            | .error e => .error e
            | .ok cf =>
              match fieldOptStr args "notes" with
              | .error e => .error e
              | .ok notes => .ok ⟨nm, ph, em, slug?.getD "lead", v, cf, notes⟩

/-- `SearchPriceCatalogSchema.parse`. -/
def parseSearchPriceCatalog (args : JObj) : Except Err SearchPriceCatalogParams :=
  match fieldReqStr args "query" with
  | .error e => .error e
  | .ok q =>
    match fieldOptStr args "category" with
    | .error e => .error e
    | .ok cat =>
      match fieldNumD args "limit" 10 with
      | .error e => .error e
      | .ok lim => .ok ⟨q, cat, lim⟩

/-- `GetLeadHistorySchema.parse`. -/
def parseGetLeadHistory (args : JObj) : Except Err GetLeadHistoryParams :=
  match fieldReqUuid args "lead_id" with
  | .error e => .error e
  | .ok id => .ok ⟨id⟩

/-- The JS falsy-or `s || d` on strings: the empty string falls back to
the default. -/
def strOrDefault (s d : String) : String := if s == "" then d else s

/-! ## Standard-stream variant handlers (`src/index.ts`) -/

/-- Result of `update_lead_stage` in the standard-stream variant
(returns the updated lead joined with `stage (name, slug)`). -/
structure UpdStageResStd where
  success : Bool
  message : String
  lead : Lead × Option (String × String)

/-- Result of `update_lead_custom_fields` in the standard-stream
variant. -/
structure CFResStd where
  success : Bool
  message : String
  lead : Lead

/-- Result of `create_lead` in the standard-stream variant. -/
structure CreateResStd where
  success : Bool
  message : String
  lead : Lead

/-- The joined view returned by `get_lead_history`: the history row
plus `changed_by (full_name)`. -/
abbrev HistoryView := HistoryEntry × Option String

/-- `getLeads` (identical logic in all three sources): resolve a truthy
stage slug (silently dropping the filter when resolution fails), apply
a truthy vendedor filter, order newest first, apply `limit || 50`. -/
def getLeads_std (db : Db) (p : GetLeadsParams) : HOut (List LeadView) :=
  let lim : Dec := if p.limit.isZero then 50 else p.limit
  let (sid?, ops) : Option Nat × List Op :=
    match p.stage_slug with
    | some s =>
      if s == "" then (none, [])
      else ((singleStage db s).map (fun st => st.id), [Op.selectStage s])
    | none => (none, [])
  let rows := db.leads.filter (fun l =>
    (match sid? with
     | some sid => l.stage_id == sid
     | none => true) &&
    (match p.vendedor_id with
     | some v => if v == "" then true else l.vendedor_id == v
     | none => true))
  let out := ((sortByDesc (fun l => l.created_at) rows).take lim.toNatFloor).map (leadView db)
  (.ok out, db, ops ++ [Op.selectLeads])

/-- `updateLeadStage` (standard-stream): resolve the slug (failure when
`.single()` sees no row), then update the lead's stage reference. -/
def updateLeadStage_std (db : Db) (p : UpdateLeadStageParams) : HOut UpdStageResStd :=
  match singleStage db p.new_stage_slug with
  | none =>
    (.error (.stageNotFound ("Stage not found: " ++ p.new_stage_slug)), db,
      [Op.selectStage p.new_stage_slug])
  | some st =>
    let r := dbUpdateLead db p.lead_id (fun l => { l with stage_id := st.id })
    match r.1 with
    | none =>
      (.error (.backend ("Failed to update lead: " ++ singleRowErrMsg)), r.2,
        [Op.selectStage p.new_stage_slug, Op.updateLead p.lead_id])
    | some l' =>
      (.ok ⟨true, "Lead moved to " ++ st.name, (l', stageNS r.2 l')⟩, r.2,
        [Op.selectStage p.new_stage_slug, Op.updateLead p.lead_id])

/-- `updateLeadCustomFields` (standard-stream): fetch the current
custom fields, failing with the LeadNotFound message when the fetch
`.single()` errors; shallow-merge; write back. -/
def updateLeadCustomFields_std (db : Db) (p : UpdateLeadCustomFieldsParams) : HOut CFResStd :=
  match singleLead db p.lead_id with
  | none =>
    (.error (.leadNotFound ("Lead not found: " ++ p.lead_id)), db,
      [Op.selectLeadCustomFields p.lead_id])
  | some l =>
    let merged := mergeObj l.custom_fields p.custom_fields
    let r := dbUpdateLead db p.lead_id (fun x => { x with custom_fields := merged })
    match r.1 with
    | none =>
      (.error (.backend ("Failed to update custom fields: " ++ singleRowErrMsg)), r.2,
        [Op.selectLeadCustomFields p.lead_id, Op.updateLead p.lead_id])
    | some l' =>
      (.ok ⟨true, "Custom fields updated", l'⟩, r.2,
        [Op.selectLeadCustomFields p.lead_id, Op.updateLead p.lead_id])

/-- The row `create_lead` inserts, with the backend-generated id and
creation timestamp drawn from `db.seq`. -/
def newLeadRow (db : Db) (name : String) (phone email : Option String) (sid : Nat)
    (vendedor : String) (cf : JObj) (notes : Option String) (pos : Nat) : Lead :=
  { id := "gen-" ++ toString db.seq, name := name, phone := phone, email := email,
    stage_id := sid, vendedor_id := vendedor, custom_fields := cf, notes := notes,
    position := pos, created_at := db.seq }

/-- `createLead` (standard-stream): resolve `stage_slug || "lead"`,
count the leads already in that stage, insert with that count as
`position` (`count || 0`). -/
def createLead_std (db : Db) (p : CreateLeadParams) : HOut CreateResStd :=
  let slug := strOrDefault p.stage_slug "lead"
  match singleStage db slug with
  | none =>
    (.error (.stageNotFound ("Stage not found: " ++ p.stage_slug)), db, [Op.selectStage slug])
  | some st =>
    let cnt := countLeadsInStage db st.id
    let nl := newLeadRow db p.name p.phone p.email st.id p.vendedor_id
      (p.custom_fields.getD []) p.notes cnt
    (.ok ⟨true, "Lead \"" ++ p.name ++ "\" created successfully", nl⟩,
      { db with leads := db.leads ++ [nl], seq := db.seq + 1 },
      [Op.selectStage slug, Op.countLeads st.id, Op.insertLead])

/-- `searchPriceCatalog` (standard-stream): active rows matching a
truthy query against product name, description or category
(case-insensitive), optionally restricted to an exact category, up to
`limit || 10`. -/
def searchPriceCatalog_std (db : Db) (p : SearchPriceCatalogParams) : HOut (List CatalogEntry) :=
  let lim : Dec := if p.limit.isZero then 10 else p.limit
  let rows := db.catalog.filter (fun c =>
    c.active &&
    (if p.query == "" then true
     else strContainsCI c.product_name p.query || strContainsCI c.description p.query ||
       strContainsCI c.category p.query) &&
    (match p.category with
     | some cat => if cat == "" then true else c.category == cat
     | none => true))
  (.ok (rows.take lim.toNatFloor), db, [Op.selectCatalog])

/-- `getLeadHistory` (identical logic in all three sources): history
rows for the lead, newest first, joined with the acting profile's full
name. -/
def getLeadHistory_std (db : Db) (p : GetLeadHistoryParams) : HOut (List HistoryView) :=
  let rows := sortByDesc (fun h => h.created_at)
    (db.history.filter (fun h => h.lead_id == p.lead_id))
  (.ok (rows.map (fun h =>
    (h, (db.profiles.find? (fun pr => pr.id == h.changed_by)).map (fun pr => pr.full_name)))),
    db, [Op.selectHistory p.lead_id])

/-! ## Pipeline stats (same aggregation loop in all three sources) -/

/-- One aggregated entry of `get_pipeline_stats`.  `total_value` is a
JS number where `none` is NaN. -/
structure StatEntry where
  count : Nat
  total_value : Option Dec
  stage_name : Option String
deriving Repr

/-- Association-list lookup on the aggregation record. -/
def lookupStat : List (String × StatEntry) → String → Option StatEntry
  | [], _ => none
  | (k, e) :: rest, s => if k == s then some e else lookupStat rest s

/-- The slug bucket a lead is aggregated under:
`(lead.stage)?.slug || "unknown"`. -/
def slugOf (db : Db) (l : Lead) : String :=
  match db.stages.find? (fun st => st.id == l.stage_id) with
  | some st => if st.slug == "" then "unknown" else st.slug
  | none => "unknown"

/-- The embedded stage row of a lead (`lead.stage`). -/
def stageOf (db : Db) (l : Lead) : Option Stage :=
  db.stages.find? (fun st => st.id == l.stage_id)

/-- `stats[slug].count++` plus the conditional
`if (value) total_value += Number(value)` on the lead's
`valor_estimado`. -/
def bumpStat (e : StatEntry) (l : Lead) : StatEntry :=
  let v := jsGet l.custom_fields "valor_estimado"
  { e with
    count := e.count + 1,
    total_value :=
      if optTruthy v then nanAdd e.total_value (jsToNumber (v.getD .null))
      else e.total_value }

/-- Rewrite the entry of one slug in the aggregation record. -/
def bumpAssoc : List (String × StatEntry) → String → Lead → List (String × StatEntry)
  | [], _, _ => []
  | (k, e) :: rest, slug, l =>
    if k == slug then (k, bumpStat e l) :: bumpAssoc rest slug l
    else (k, e) :: bumpAssoc rest slug l

/-- One iteration of the aggregation loop: create the slug's entry on
first sight (count 0, total 0, the stage name of this lead), then bump
it. -/
def statsStep (db : Db) (acc : List (String × StatEntry)) (l : Lead) :
    List (String × StatEntry) :=
  let slug := slugOf db l
  let acc' :=
    if (lookupStat acc slug).isSome then acc
    else acc ++ [(slug, ⟨0, some 0, (stageOf db l).map (fun st => st.name)⟩)]
  bumpAssoc acc' slug l

/-- The `get_pipeline_stats` aggregation over all leads, in backend
row order. -/
def pipelineStatsData (db : Db) : List (String × StatEntry) :=
  db.leads.foldl (statsStep db) []

/-- `getPipelineStats` (standard-stream). -/
def getPipelineStats_std (db : Db) : HOut (List (String × StatEntry)) :=
  (.ok (pipelineStatsData db), db, [Op.selectLeads])

/-! ## Event-stream variant handlers (unnamed SSE source) -/

/-- Result of `update_lead_stage` in the event-stream variant (plain
`select()`, no join). -/
structure UpdStageResSse where
  success : Bool
  message : String
  lead : Lead

/-- Result of `update_lead_custom_fields` in the event-stream variant
(no message field). -/
structure CFResSse where
  success : Bool
  lead : Lead

/-- Result of `create_lead` in the event-stream variant (no message
field). -/
structure CreateResSse where
  success : Bool
  lead : Lead

/-- `getLeads` (event-stream): same logic as the standard-stream
variant. -/
def getLeads_sse (db : Db) (p : GetLeadsParams) : HOut (List LeadView) :=
  let lim : Dec := if p.limit.isZero then 50 else p.limit
  let (sid?, ops) : Option Nat × List Op :=
    match p.stage_slug with
    | some s =>
      if s == "" then (none, [])
      else ((singleStage db s).map (fun st => st.id), [Op.selectStage s])
    | none => (none, [])
  let rows := db.leads.filter (fun l =>
    (match sid? with
     | some sid => l.stage_id == sid
     | none => true) &&
    (match p.vendedor_id with
     | some v => if v == "" then true else l.vendedor_id == v
     | none => true))
  let out := ((sortByDesc (fun l => l.created_at) rows).take lim.toNatFloor).map (leadView db)
  (.ok out, db, ops ++ [Op.selectLeads])

/-- `updateLeadStage` (event-stream): like the standard-stream variant
but the updated lead is returned without a join and the update failure
message is passed through verbatim. -/
def updateLeadStage_sse (db : Db) (p : UpdateLeadStageParams) : HOut UpdStageResSse :=
  match singleStage db p.new_stage_slug with
  | none =>
    (.error (.stageNotFound ("Stage not found: " ++ p.new_stage_slug)), db,
      [Op.selectStage p.new_stage_slug])
  | some st =>
    let r := dbUpdateLead db p.lead_id (fun l => { l with stage_id := st.id })
    match r.1 with
    | none =>
      (.error (.backend singleRowErrMsg), r.2,
        [Op.selectStage p.new_stage_slug, Op.updateLead p.lead_id])
    | some l' =>
      (.ok ⟨true, "Lead moved to " ++ st.name, l'⟩, r.2,
        [Op.selectStage p.new_stage_slug, Op.updateLead p.lead_id])

/-- `updateLeadCustomFields` (event-stream): the fetch error is NOT
checked (`const { data: current } = ...`); a missing lead merges into
`{}` and the write is attempted anyway, failing with the backend's
single-row message. -/
def updateLeadCustomFields_sse (db : Db) (p : UpdateLeadCustomFieldsParams) : HOut CFResSse :=
  let prior : JObj :=
    match singleLead db p.lead_id with
    | some l => l.custom_fields
    | none => []
  let merged := mergeObj prior p.custom_fields
  let r := dbUpdateLead db p.lead_id (fun x => { x with custom_fields := merged })
  match r.1 with
  | none =>
    (.error (.backend singleRowErrMsg), r.2,
      [Op.selectLeadCustomFields p.lead_id, Op.updateLead p.lead_id])
  | some l' =>
    (.ok ⟨true, l'⟩, r.2,
      [Op.selectLeadCustomFields p.lead_id, Op.updateLead p.lead_id])

/-- `createLead` (event-stream): same steps as the standard-stream
variant (the count query carries no `head` option but yields the same
count); the stage failure message carries no slug and the result has no
message field. -/
def createLead_sse (db : Db) (p : CreateLeadParams) : HOut CreateResSse :=
  let slug := strOrDefault p.stage_slug "lead"
  match singleStage db slug with
  | none => (.error (.stageNotFound "Stage not found"), db, [Op.selectStage slug])
  | some st =>
    let cnt := countLeadsInStage db st.id
    let nl := newLeadRow db p.name p.phone p.email st.id p.vendedor_id
      (p.custom_fields.getD []) p.notes cnt
    (.ok ⟨true, nl⟩,
      { db with leads := db.leads ++ [nl], seq := db.seq + 1 },
      [Op.selectStage slug, Op.countLeads st.id, Op.insertLead])

/-- `searchPriceCatalog` (event-stream): the text match covers product
name and description only (no category clause, unlike the
standard-stream variant). -/
def searchPriceCatalog_sse (db : Db) (p : SearchPriceCatalogParams) : HOut (List CatalogEntry) :=
  let lim : Dec := if p.limit.isZero then 10 else p.limit
  let rows := db.catalog.filter (fun c =>
    c.active &&
    (if p.query == "" then true
     else strContainsCI c.product_name p.query || strContainsCI c.description p.query) &&
    (match p.category with
     | some cat => if cat == "" then true else c.category == cat
     | none => true))
  (.ok (rows.take lim.toNatFloor), db, [Op.selectCatalog])

/-- `getLeadHistory` (event-stream): same logic as the standard-stream
variant. -/
def getLeadHistory_sse (db : Db) (p : GetLeadHistoryParams) : HOut (List HistoryView) :=
  let rows := sortByDesc (fun h => h.created_at)
    (db.history.filter (fun h => h.lead_id == p.lead_id))
  (.ok (rows.map (fun h =>
    (h, (db.profiles.find? (fun pr => pr.id == h.changed_by)).map (fun pr => pr.full_name)))),
    db, [Op.selectHistory p.lead_id])

/-- `getPipelineStats` (event-stream): same aggregation. -/
def getPipelineStats_sse (db : Db) : HOut (List (String × StatEntry)) :=
  (.ok (pipelineStatsData db), db, [Op.selectLeads])

/-! ## HTTP variant handlers (`src/server.ts`)

The HTTP variant performs NO runtime validation: `tool.handler(args ||
{})` receives the raw JSON arguments.  The handlers below therefore
take the raw object and read fields the way the JavaScript does
(`undefined` propagation, truthiness tests, `String(...)` serialization
of filter values into the PostgREST request). -/

/-- A raw value written to a nullable text column by an insert
(`undefined`/`null` → SQL NULL; other non-strings approximated by
their JS string form — no claim depends on them). -/
def rawOptStr : Option JVal → Option String
  | none => none
  | some .null => none
  | some (.str s) => some s
  | some v => some (jsUrlString (some v))

/-- `params.limit || d` on a raw value followed by `.limit(...)`
(a truthy non-number limit is approximated by its numeric coercion;
no claim depends on it). -/
def httpLimit (v : Option JVal) (d : Dec) : Dec :=
  if optTruthy v then (jsToNumber (v.getD .null)).getD d else d

/-- Result of `update_lead_stage` in the HTTP variant (join on
`stage (name, slug)` as in the standard-stream variant, no
message-field differences). -/
structure UpdStageResHttp where
  success : Bool
  message : String
  lead : Lead × Option (String × String)

/-- Result of `update_lead_custom_fields` in the HTTP variant. -/
structure CFResHttp where
  success : Bool
  lead : Lead

/-- Result of `create_lead` in the HTTP variant. -/
structure CreateResHttp where
  success : Bool
  lead : Lead

/-- `getLeads` (HTTP, raw arguments). -/
def getLeads_http (db : Db) (args : JObj) : HOut (List LeadView) :=
  let limV := jsGet args "limit"
  let lim := httpLimit limV 50
  let slugV := jsGet args "stage_slug"
  let (sid?, ops) : Option Nat × List Op :=
    if optTruthy slugV then
      let s := jsUrlString slugV
      ((singleStage db s).map (fun st => st.id), [Op.selectStage s])
    else (none, [])
  let vendV := jsGet args "vendedor_id"
  let rows := db.leads.filter (fun l =>
    (match sid? with
     | some sid => l.stage_id == sid
     | none => true) &&
    (if optTruthy vendV then l.vendedor_id == jsUrlString vendV else true))
  let out := ((sortByDesc (fun l => l.created_at) rows).take lim.toNatFloor).map (leadView db)
  (.ok out, db, ops ++ [Op.selectLeads])

/-- `updateLeadStage` (HTTP, raw arguments). -/
def updateLeadStage_http (db : Db) (args : JObj) : HOut UpdStageResHttp :=
  let slugS := jsUrlString (jsGet args "new_stage_slug")
  match singleStage db slugS with
  | none =>
    (.error (.stageNotFound ("Stage not found: " ++ slugS)), db, [Op.selectStage slugS])
  | some st =>
    let idS := jsUrlString (jsGet args "lead_id")
    let r := dbUpdateLead db idS (fun l => { l with stage_id := st.id })
    match r.1 with
    | none =>
      (.error (.backend singleRowErrMsg), r.2, [Op.selectStage slugS, Op.updateLead idS])
    | some l' =>
      (.ok ⟨true, "Lead moved to " ++ st.name, (l', stageNS r.2 l')⟩, r.2,
        [Op.selectStage slugS, Op.updateLead idS])

/-- `updateLeadCustomFields` (HTTP, raw arguments): the fetch error is
NOT checked; a missing lead merges into `{}` and the write is attempted
anyway. -/
def updateLeadCustomFields_http (db : Db) (args : JObj) : HOut CFResHttp :=
  let idS := jsUrlString (jsGet args "lead_id")
  let prior : JObj :=
    match singleLead db idS with
    | some l => l.custom_fields
    | none => []
  let merged := mergeObj prior (jsSpreadObj (jsGet args "custom_fields"))
  let r := dbUpdateLead db idS (fun x => { x with custom_fields := merged })
  match r.1 with
  | none =>
    (.error (.backend singleRowErrMsg), r.2,
      [Op.selectLeadCustomFields idS, Op.updateLead idS])
  | some l' =>
    (.ok ⟨true, l'⟩, r.2,
      [Op.selectLeadCustomFields idS, Op.updateLead idS])

/-- `createLead` (HTTP, raw arguments): `params.stage_slug || "lead"`
on the raw value; position from the stage count. -/
def createLead_http (db : Db) (args : JObj) : HOut CreateResHttp :=
  let slugV := jsGet args "stage_slug"
  let slug := if optTruthy slugV then jsUrlString slugV else "lead"
  match singleStage db slug with
  | none => (.error (.stageNotFound "Stage not found"), db, [Op.selectStage slug])
  | some st =>
    let cnt := countLeadsInStage db st.id
    let nl := newLeadRow db ((rawOptStr (jsGet args "name")).getD "")
      (rawOptStr (jsGet args "phone")) (rawOptStr (jsGet args "email")) st.id
      ((rawOptStr (jsGet args "vendedor_id")).getD "")
      (if optTruthy (jsGet args "custom_fields") then jsSpreadObj (jsGet args "custom_fields")
       else [])
      (rawOptStr (jsGet args "notes")) cnt
    (.ok ⟨true, nl⟩,
      { db with leads := db.leads ++ [nl], seq := db.seq + 1 },
      [Op.selectStage slug, Op.countLeads st.id, Op.insertLead])

/-- `searchPriceCatalog` (HTTP, raw arguments): text match on product
name and description only. -/
def searchPriceCatalog_http (db : Db) (args : JObj) : HOut (List CatalogEntry) :=
  let lim := httpLimit (jsGet args "limit") 10
  let qV := jsGet args "query"
  let catV := jsGet args "category"
  let rows := db.catalog.filter (fun c =>
    c.active &&
    (if optTruthy qV then
       strContainsCI c.product_name (jsUrlString qV) ||
         strContainsCI c.description (jsUrlString qV)
     else true) &&
    (if optTruthy catV then c.category == jsUrlString catV else true))
  (.ok (rows.take lim.toNatFloor), db, [Op.selectCatalog])

/-- `getLeadHistory` (HTTP, raw arguments). -/
def getLeadHistory_http (db : Db) (args : JObj) : HOut (List HistoryView) :=
  let idS := jsUrlString (jsGet args "lead_id")
  let rows := sortByDesc (fun h => h.created_at)
    (db.history.filter (fun h => h.lead_id == idS))
  (.ok (rows.map (fun h =>
    (h, (db.profiles.find? (fun pr => pr.id == h.changed_by)).map (fun pr => pr.full_name)))),
    db, [Op.selectHistory idS])

/-- `getPipelineStats` (HTTP): same aggregation. -/
def getPipelineStats_http (db : Db) : HOut (List (String × StatEntry)) :=
  (.ok (pipelineStatsData db), db, [Op.selectLeads])

/-! ## Dispatch (tool registry and invocation) per transport -/

/-- The payload of a successful standard-stream tool call. -/
inductive ToolOutStd where
  | leads (xs : List LeadView) : ToolOutStd
  | stageUpd (r : UpdStageResStd) : ToolOutStd
  | customFields (r : CFResStd) : ToolOutStd
  | created (r : CreateResStd) : ToolOutStd
  | catalog (xs : List CatalogEntry) : ToolOutStd
  | history (xs : List HistoryView) : ToolOutStd
  | stats (xs : List (String × StatEntry)) : ToolOutStd

/-- The payload of a successful event-stream tool call. -/
inductive ToolOutSse where
  | leads (xs : List LeadView) : ToolOutSse
  | stageUpd (r : UpdStageResSse) : ToolOutSse
  | customFields (r : CFResSse) : ToolOutSse
  | created (r : CreateResSse) : ToolOutSse
  | catalog (xs : List CatalogEntry) : ToolOutSse
  | history (xs : List HistoryView) : ToolOutSse
  | stats (xs : List (String × StatEntry)) : ToolOutSse

/-- The payload of a successful HTTP tool call. -/
inductive ToolOutHttp where
  | leads (xs : List LeadView) : ToolOutHttp
  | stageUpd (r : UpdStageResHttp) : ToolOutHttp
  | customFields (r : CFResHttp) : ToolOutHttp
  | created (r : CreateResHttp) : ToolOutHttp
  | catalog (xs : List CatalogEntry) : ToolOutHttp
  | history (xs : List HistoryView) : ToolOutHttp
  | stats (xs : List (String × StatEntry)) : ToolOutHttp

/-- Map a handler output into the dispatch payload. -/
def liftOut (f : α → β) (o : HOut α) : Except Err β × Db × List Op :=
  (o.1.map f, o.2)

/-- Run a parser, then the handler on success; a parse failure is
surfaced before any handler code runs (empty trace, unchanged state). -/
def parsed (db : Db) (args : JObj) (p : JObj → Except Err γ) (h : Db → γ → HOut α)
    (f : α → β) : Except Err β × Db × List Op :=
  match p args with
  | .error e => (.error e, db, [])
  | .ok g => liftOut f (h db g)

/-- The standard-stream `CallToolRequestSchema` handler: zod-validate
the arguments of the named tool, run its handler, or fail with the
UnknownTool message. -/
def invoke_std (db : Db) (name : String) (args : JObj) :
    Except Err ToolOutStd × Db × List Op :=
  if name == "get_leads" then
    parsed db args parseGetLeads getLeads_std ToolOutStd.leads
  else if name == "update_lead_stage" then
    parsed db args parseUpdateLeadStage updateLeadStage_std ToolOutStd.stageUpd
  else if name == "update_lead_custom_fields" then
    parsed db args parseUpdateLeadCustomFields updateLeadCustomFields_std ToolOutStd.customFields
  else if name == "create_lead" then
    parsed db args parseCreateLead createLead_std ToolOutStd.created
  else if name == "search_price_catalog" then
    parsed db args parseSearchPriceCatalog searchPriceCatalog_std ToolOutStd.catalog
  else if name == "get_lead_history" then
    parsed db args parseGetLeadHistory getLeadHistory_std ToolOutStd.history
  else if name == "get_pipeline_stats" then
    liftOut ToolOutStd.stats (getPipelineStats_std db)
  else
    (.error (.unknownTool ("Unknown tool: " ++ name)), db, [])

/-- The event-stream `CallToolRequestSchema` handler: same structure as
the standard-stream dispatch, over the event-stream handlers. -/
def invoke_sse (db : Db) (name : String) (args : JObj) :
    Except Err ToolOutSse × Db × List Op :=
  if name == "get_leads" then
    parsed db args parseGetLeads getLeads_sse ToolOutSse.leads
  else if name == "update_lead_stage" then
    parsed db args parseUpdateLeadStage updateLeadStage_sse ToolOutSse.stageUpd
  else if name == "update_lead_custom_fields" then
    parsed db args parseUpdateLeadCustomFields updateLeadCustomFields_sse ToolOutSse.customFields
  else if name == "create_lead" then
    parsed db args parseCreateLead createLead_sse ToolOutSse.created
  else if name == "search_price_catalog" then
    parsed db args parseSearchPriceCatalog searchPriceCatalog_sse ToolOutSse.catalog
  else if name == "get_lead_history" then
    parsed db args parseGetLeadHistory getLeadHistory_sse ToolOutSse.history
  else if name == "get_pipeline_stats" then
    liftOut ToolOutSse.stats (getPipelineStats_sse db)
  else
    (.error (.unknownTool ("Unknown tool: " ++ name)), db, [])

/-- The HTTP `POST /mcp` tools/call path (and the simplified direct
`{tool, arguments}` path, which shares the same lookup and handlers):
look the tool up in `TOOLS`, rejecting unknown names with "Tool not
found", and run the handler DIRECTLY on the raw arguments — no
validation step exists in this variant. -/
def invoke_http (db : Db) (name : String) (args : JObj) :
    Except Err ToolOutHttp × Db × List Op :=
  if name == "get_leads" then
    liftOut ToolOutHttp.leads (getLeads_http db args)
  else if name == "update_lead_stage" then
    liftOut ToolOutHttp.stageUpd (updateLeadStage_http db args)
  else if name == "update_lead_custom_fields" then
    liftOut ToolOutHttp.customFields (updateLeadCustomFields_http db args)
  else if name == "create_lead" then
    liftOut ToolOutHttp.created (createLead_http db args)
  else if name == "search_price_catalog" then
    liftOut ToolOutHttp.catalog (searchPriceCatalog_http db args)
  else if name == "get_lead_history" then
    liftOut ToolOutHttp.history (getLeadHistory_http db args)
  else if name == "get_pipeline_stats" then
    liftOut ToolOutHttp.stats (getPipelineStats_http db)
  else
    (.error (.unknownTool ("Tool not found: " ++ name)), db, [])

/-- The seven registered tool names, in registry order. -/
def toolNames : List String :=
  ["get_leads", "update_lead_stage", "update_lead_custom_fields", "create_lead",
   "search_price_catalog", "get_lead_history", "get_pipeline_stats"]

/-- Whether an outcome is a validation failure. -/
def isValidationOut : Except Err α → Bool
  | .error (.validation _) => true
  | _ => false

/-- Whether an outcome is a lead-not-found failure. -/
def isLeadNotFoundOut : Except Err α → Bool
  | .error (.leadNotFound _) => true
  | _ => false

/-- Whether an outcome succeeded. -/
def okOut : Except Err α → Bool
  | .ok _ => true
  | .error _ => false

/-! ## Helper lemmas -/

theorem find?_filter_imp (l : List α) (p q : α → Bool) (h : ∀ a, p a = true → q a = true) :
    (l.filter q).find? p = l.find? p := by
  induction l with
  | nil => rfl
  | cons a t ih =>
    cases hq : q a with
    | true =>
      cases hp : p a with
      | true => simp [List.filter_cons, hq, hp]
      | false => simp [List.filter_cons, hq, hp, ih]
    | false =>
      have hp : p a = false := by
        cases hpa : p a with
        | true => exact absurd (h a hpa) (by simp [hq])
        | false => rfl
      simp [List.filter_cons, hq, hp, ih]

/-- Key-wise description of the JS spread `{...old, ...upd}`: a key
present in the update takes the update's value, any other key keeps its
prior value. -/
theorem jsGet_mergeObj (old upd : JObj) (k : String) :
    jsGet (mergeObj old upd) k = (jsGet upd k).or (jsGet old k) := by
  show ((mergeObj old upd).find? (fun kv => kv.1 == k)).map (fun kv => kv.2)
      = ((upd.find? (fun kv => kv.1 == k)).map (fun kv => kv.2)).or
        ((old.find? (fun kv => kv.1 == k)).map (fun kv => kv.2))
  unfold mergeObj
  rw [List.find?_append, List.find?_map]
  have hpf : (old.find? ((fun kv : String × JVal => kv.1 == k) ∘
      (fun kv : String × JVal => (kv.1, (jsGet upd kv.1).getD kv.2))))
      = old.find? (fun kv : String × JVal => kv.1 == k) := rfl
  rw [hpf]
  cases hfd : (old.find? (fun kv : String × JVal => kv.1 == k)) with
  | none =>
    have hq : ∀ kv : String × JVal, (kv.1 == k) = true →
        ((jsGet old kv.1).isNone) = true := by
      intro kv hkv
      have hk : kv.1 = k := eq_of_beq hkv
      rw [hk]
      show ((old.find? (fun kv : String × JVal => kv.1 == k)).map (fun kv => kv.2)).isNone = true
      rw [hfd]
      rfl
    rw [find?_filter_imp upd _ _ hq]
    cases upd.find? (fun kv : String × JVal => kv.1 == k) <;> rfl
  | some kv₀ =>
    have hpk := List.find?_some hfd
    have hk : kv₀.1 = k := eq_of_beq hpk
    have hbeta : ((fun kv : String × JVal => (kv.1, (jsGet upd kv.1).getD kv.2)) kv₀)
        = (kv₀.1, (jsGet upd kv₀.1).getD kv₀.2) := rfl
    rw [Option.map_some', hk, Option.map_some']
    have hup : jsGet upd k = (upd.find? (fun kv : String × JVal => kv.1 == k)).map
        (fun kv => kv.2) := rfl
    rw [hup]
    cases upd.find? (fun kv : String × JVal => kv.1 == k) <;> rfl

theorem map_update_of_absent (xs : List Lead) (i : String) (f : Lead → Lead)
    (h : xs.filter (fun x => x.id == i) = []) :
    xs.map (fun x => if x.id == i then f x else x) = xs := by
  rw [List.filter_eq_nil_iff] at h
  have hfn : ∀ x ∈ xs, (if x.id == i then f x else x) = x := by
    intro x hx
    have : (x.id == i) = false := by
      have := h x hx
      simpa using this
    simp [this]
  calc xs.map (fun x => if x.id == i then f x else x) = xs.map id :=
        List.map_congr_left hfn
    _ = xs := List.map_id xs

theorem filter_map_update (xs : List Lead) (i : String) (f : Lead → Lead) (l : Lead)
    (hid : ∀ x, (f x).id = x.id)
    (h : xs.filter (fun x => x.id == i) = [l]) :
    (xs.map (fun x => if x.id == i then f x else x)).filter (fun x => x.id == i) = [f l] := by
  induction xs with
  | nil => simp at h
  | cons a t ih =>
    cases ha : (a.id == i) with
    | true =>
      rw [List.filter_cons] at h
      simp only [ha, if_true] at h
      have h2 : a = l ∧ t.filter (fun x => x.id == i) = [] := by
        constructor
        · exact (List.cons.injEq _ _ _ _ ▸ h).1
        · exact (List.cons.injEq _ _ _ _ ▸ h).2
      obtain ⟨rfl, ht⟩ := h2
      have hmap : t.map (fun x => if x.id == i then f x else x) = t :=
        map_update_of_absent t i f ht
      simp only [List.map_cons, ha, if_true, hmap, List.filter_cons]
      have hfa : ((f a).id == i) = true := by rw [hid a]; exact ha
      simp [hfa, ht]
    | false =>
      rw [List.filter_cons] at h
      simp only [ha, if_false, Bool.false_eq_true] at h
      simp only [List.map_cons, ha, if_false, List.filter_cons, Bool.false_eq_true]
      rw [ih h]

/-- Folding the per-lead bump over a list of leads. -/
def extendStat (e : StatEntry) (L : List Lead) : StatEntry := L.foldl bumpStat e

theorem lookupStat_bumpAssoc_eq (acc : List (String × StatEntry)) (s : String) (l : Lead) :
    lookupStat (bumpAssoc acc s l) s = (lookupStat acc s).map (fun e => bumpStat e l) := by
  induction acc with
  | nil => rfl
  | cons kv rest ih =>
    obtain ⟨k0, e0⟩ := kv
    cases hk : (k0 == s) with
    | true => simp [bumpAssoc, lookupStat, hk]
    | false => simp [bumpAssoc, lookupStat, hk, ih]

theorem lookupStat_bumpAssoc_ne (acc : List (String × StatEntry)) (s t : String) (l : Lead)
    (h : s ≠ t) :
    lookupStat (bumpAssoc acc s l) t = lookupStat acc t := by
  induction acc with
  | nil => rfl
  | cons kv rest ih =>
    obtain ⟨k0, e0⟩ := kv
    cases hks : (k0 == s) with
    | true =>
      have hk0 : k0 = s := eq_of_beq hks
      have hkt : (k0 == t) = false := beq_false_of_ne (hk0 ▸ h)
      simp [bumpAssoc, lookupStat, hks, hkt, ih]
    | false =>
      cases hkt : (k0 == t) with
      | true => simp [bumpAssoc, lookupStat, hks, hkt]
      | false => simp [bumpAssoc, lookupStat, hks, hkt, ih]

theorem lookupStat_append (acc : List (String × StatEntry)) (k : String) (e : StatEntry)
    (t : String) :
    lookupStat (acc ++ [(k, e)]) t =
      (lookupStat acc t).or (if k == t then some e else none) := by
  induction acc with
  | nil =>
    show lookupStat [(k, e)] t = Option.none.or (if k == t then some e else none)
    cases hk : (k == t) with
    | true => simp [lookupStat, hk]
    | false => simp [lookupStat, hk]
  | cons kv rest ih =>
    obtain ⟨k0, e0⟩ := kv
    cases hk0 : (k0 == t) with
    | true => simp [lookupStat, hk0]
    | false => simp [lookupStat, hk0, ih]

theorem lookupStat_statsStep_eq (db : Db) (acc : List (String × StatEntry)) (l₀ : Lead) :
    lookupStat (statsStep db acc l₀) (slugOf db l₀) =
      some (bumpStat ((lookupStat acc (slugOf db l₀)).getD
        ⟨0, some 0, (stageOf db l₀).map (fun st => st.name)⟩) l₀) := by
  unfold statsStep
  cases hacc : lookupStat acc (slugOf db l₀) with
  | some e =>
    simp only [hacc, Option.isSome_some, if_true]
    rw [lookupStat_bumpAssoc_eq, hacc]
    rfl
  | none =>
    simp only [hacc, Option.isSome_none, Bool.false_eq_true, if_false]
    rw [lookupStat_bumpAssoc_eq, lookupStat_append, hacc]
    simp

theorem lookupStat_statsStep_ne (db : Db) (acc : List (String × StatEntry)) (l₀ : Lead)
    (t : String) (h : slugOf db l₀ ≠ t) :
    lookupStat (statsStep db acc l₀) t = lookupStat acc t := by
  unfold statsStep
  cases hacc : lookupStat acc (slugOf db l₀) with
  | some e =>
    simp only [hacc, Option.isSome_some, if_true]
    exact lookupStat_bumpAssoc_ne _ _ _ _ h
  | none =>
    simp only [hacc, Option.isSome_none, Bool.false_eq_true, if_false]
    rw [lookupStat_bumpAssoc_ne _ _ _ _ h, lookupStat_append]
    rw [beq_false_of_ne h]
    simp

theorem lookupStat_statsFold (db : Db) (L : List Lead) (acc : List (String × StatEntry))
    (slug : String) :
    lookupStat (L.foldl (statsStep db) acc) slug =
      match lookupStat acc slug, L.filter (fun l => slugOf db l == slug) with
      | some e, F => some (extendStat e F)
      | none, [] => none
      | none, l :: F =>
        some (extendStat ⟨0, some 0, (stageOf db l).map (fun st => st.name)⟩ (l :: F)) := by
  induction L generalizing acc with
  | nil =>
    cases h : lookupStat acc slug with
    | some e => simp [h, extendStat]
    | none => simp [h]
  | cons l₀ L ih =>
    rw [List.foldl_cons, ih (statsStep db acc l₀), List.filter_cons]
    cases hsl : (slugOf db l₀ == slug) with
    | true =>
      have hseq : slugOf db l₀ = slug := eq_of_beq hsl
      rw [← hseq, lookupStat_statsStep_eq]
      cases hacc : lookupStat acc (slugOf db l₀) with
      | some e =>
        simp only [hacc, Option.getD_some, if_true]
        rfl
      | none =>
        simp only [hacc, Option.getD_none, if_true]
        rfl
    | false =>
      have hne : slugOf db l₀ ≠ slug := ne_of_beq_false hsl
      rw [lookupStat_statsStep_ne db acc l₀ slug hne]
      simp only [Bool.false_eq_true, if_false]

/-- Filter-based specification of one aggregated entry: the leads
bucketed under a slug, counted and totalled in backend row order
(entry absent exactly when no lead maps to the slug; the stage name
comes from the first such lead). -/
def buildStat (db : Db) (slug : String) : Option StatEntry :=
  match db.leads.filter (fun l => slugOf db l == slug) with
  | [] => none
  | l :: ls => some (extendStat ⟨0, some 0, (stageOf db l).map (fun st => st.name)⟩ (l :: ls))

theorem pipelineStats_lookup (db : Db) (slug : String) :
    lookupStat (pipelineStatsData db) slug = buildStat db slug := by
  unfold pipelineStatsData buildStat
  rw [lookupStat_statsFold db db.leads [] slug]
  cases db.leads.filter (fun l => slugOf db l == slug) <;> rfl

/-- The contribution step of the running total: a truthy
`valor_estimado` adds its numeric coercion (NaN-propagating), anything
else leaves the total unchanged. -/
def statContribution (t : Option Dec) (l : Lead) : Option Dec :=
  let v := jsGet l.custom_fields "valor_estimado"
  if optTruthy v then nanAdd t (jsToNumber (v.getD .null)) else t

theorem extendStat_count (e : StatEntry) (L : List Lead) :
    (extendStat e L).count = e.count + L.length := by
  induction L generalizing e with
  | nil => simp [extendStat]
  | cons l L ih =>
    have h1 : extendStat e (l :: L) = extendStat (bumpStat e l) L := rfl
    rw [h1, ih]
    have h2 : (bumpStat e l).count = e.count + 1 := rfl
    rw [h2, List.length_cons]
    omega

theorem extendStat_total (e : StatEntry) (L : List Lead) :
    (extendStat e L).total_value = L.foldl statContribution e.total_value := by
  induction L generalizing e with
  | nil => rfl
  | cons l L ih =>
    have h1 : extendStat e (l :: L) = extendStat (bumpStat e l) L := rfl
    rw [h1, ih]
    rfl

/-! ## Handler characterization lemmas -/

theorem singleStage_of_filter_nil (db : Db) (s : String)
    (h : db.stages.filter (fun st => st.slug == s) = []) : singleStage db s = none := by
  unfold singleStage
  rw [h]

theorem singleLead_of_filter_nil (db : Db) (i : String)
    (h : db.leads.filter (fun l => l.id == i) = []) : singleLead db i = none := by
  unfold singleLead
  rw [h]

theorem singleLead_of_filter_one (db : Db) (i : String) (l : Lead)
    (h : db.leads.filter (fun l => l.id == i) = [l]) : singleLead db i = some l := by
  unfold singleLead
  rw [h]

theorem dbUpdateLead_found (db : Db) (i : String) (f : Lead → Lead) (l : Lead)
    (h : db.leads.filter (fun x => x.id == i) = [l]) :
    dbUpdateLead db i f =
      (some (f l),
       { db with leads := db.leads.map (fun x => if x.id == i then f x else x) }) := by
  unfold dbUpdateLead
  rw [h]

theorem dbUpdateLead_absent (db : Db) (i : String) (f : Lead → Lead)
    (h : db.leads.filter (fun x => x.id == i) = []) :
    dbUpdateLead db i f = (none, db) := by
  unfold dbUpdateLead
  rw [h, map_update_of_absent db.leads i f h]

theorem updateLeadCustomFields_std_found (db : Db) (p : UpdateLeadCustomFieldsParams) (l : Lead)
    (h : db.leads.filter (fun x => x.id == p.lead_id) = [l]) :
    updateLeadCustomFields_std db p =
      (.ok ⟨true, "Custom fields updated",
          { l with custom_fields := mergeObj l.custom_fields p.custom_fields }⟩,
       { db with leads := db.leads.map (fun x =>
           if x.id == p.lead_id then
             { x with custom_fields := mergeObj l.custom_fields p.custom_fields }
           else x) },
       [Op.selectLeadCustomFields p.lead_id, Op.updateLead p.lead_id]) := by
  unfold updateLeadCustomFields_std
  rw [singleLead_of_filter_one db p.lead_id l h]
  simp only []
  rw [dbUpdateLead_found db p.lead_id _ l h]

theorem updateLeadCustomFields_std_missing (db : Db) (p : UpdateLeadCustomFieldsParams)
    (h : db.leads.filter (fun x => x.id == p.lead_id) = []) :
    updateLeadCustomFields_std db p =
      (.error (.leadNotFound ("Lead not found: " ++ p.lead_id)), db,
       [Op.selectLeadCustomFields p.lead_id]) := by
  unfold updateLeadCustomFields_std
  rw [singleLead_of_filter_nil db p.lead_id h]

theorem updateLeadCustomFields_sse_found (db : Db) (p : UpdateLeadCustomFieldsParams) (l : Lead)
    (h : db.leads.filter (fun x => x.id == p.lead_id) = [l]) :
    updateLeadCustomFields_sse db p =
      (.ok ⟨true, { l with custom_fields := mergeObj l.custom_fields p.custom_fields }⟩,
       { db with leads := db.leads.map (fun x =>
           if x.id == p.lead_id then
             { x with custom_fields := mergeObj l.custom_fields p.custom_fields }
           else x) },
       [Op.selectLeadCustomFields p.lead_id, Op.updateLead p.lead_id]) := by
  unfold updateLeadCustomFields_sse
  rw [singleLead_of_filter_one db p.lead_id l h]
  simp only []
  rw [dbUpdateLead_found db p.lead_id _ l h]

theorem updateLeadCustomFields_sse_missing (db : Db) (p : UpdateLeadCustomFieldsParams)
    (h : db.leads.filter (fun x => x.id == p.lead_id) = []) :
    updateLeadCustomFields_sse db p =
      (.error (.backend singleRowErrMsg), db,
       [Op.selectLeadCustomFields p.lead_id, Op.updateLead p.lead_id]) := by
  unfold updateLeadCustomFields_sse
  rw [singleLead_of_filter_nil db p.lead_id h]
  simp only []
  rw [dbUpdateLead_absent db p.lead_id _ h]

theorem updateLeadStage_std_noStage (db : Db) (p : UpdateLeadStageParams)
    (h : db.stages.filter (fun st => st.slug == p.new_stage_slug) = []) :
    updateLeadStage_std db p =
      (.error (.stageNotFound ("Stage not found: " ++ p.new_stage_slug)), db,
       [Op.selectStage p.new_stage_slug]) := by
  unfold updateLeadStage_std
  rw [singleStage_of_filter_nil db p.new_stage_slug h]

theorem updateLeadStage_sse_noStage (db : Db) (p : UpdateLeadStageParams)
    (h : db.stages.filter (fun st => st.slug == p.new_stage_slug) = []) :
    updateLeadStage_sse db p =
      (.error (.stageNotFound ("Stage not found: " ++ p.new_stage_slug)), db,
       [Op.selectStage p.new_stage_slug]) := by
  unfold updateLeadStage_sse
  rw [singleStage_of_filter_nil db p.new_stage_slug h]

theorem createLead_std_noStage (db : Db) (p : CreateLeadParams) (hne : p.stage_slug ≠ "")
    (h : db.stages.filter (fun st => st.slug == p.stage_slug) = []) :
    createLead_std db p =
      (.error (.stageNotFound ("Stage not found: " ++ p.stage_slug)), db,
       [Op.selectStage p.stage_slug]) := by
  have hd : strOrDefault p.stage_slug "lead" = p.stage_slug := by
    unfold strOrDefault
    rw [beq_false_of_ne hne]
    rfl
  unfold createLead_std
  rw [hd]
  simp only []
  rw [singleStage_of_filter_nil db p.stage_slug h]

theorem createLead_sse_noStage (db : Db) (p : CreateLeadParams) (hne : p.stage_slug ≠ "")
    (h : db.stages.filter (fun st => st.slug == p.stage_slug) = []) :
    createLead_sse db p =
      (.error (.stageNotFound "Stage not found"), db, [Op.selectStage p.stage_slug]) := by
  have hd : strOrDefault p.stage_slug "lead" = p.stage_slug := by
    unfold strOrDefault
    rw [beq_false_of_ne hne]
    rfl
  unfold createLead_sse
  rw [hd]
  simp only []
  rw [singleStage_of_filter_nil db p.stage_slug h]

theorem createLead_std_found (db : Db) (p : CreateLeadParams) (st : Stage)
    (hst : singleStage db (strOrDefault p.stage_slug "lead") = some st) :
    createLead_std db p =
      (.ok ⟨true, "Lead \"" ++ p.name ++ "\" created successfully",
        newLeadRow db p.name p.phone p.email st.id p.vendedor_id
          (p.custom_fields.getD []) p.notes (countLeadsInStage db st.id)⟩,
       { db with
          leads := db.leads ++ [newLeadRow db p.name p.phone p.email st.id p.vendedor_id
            (p.custom_fields.getD []) p.notes (countLeadsInStage db st.id)],
          seq := db.seq + 1 },
       [Op.selectStage (strOrDefault p.stage_slug "lead"), Op.countLeads st.id,
        Op.insertLead]) := by
  unfold createLead_std
  simp only []
  rw [hst]

theorem createLead_sse_found (db : Db) (p : CreateLeadParams) (st : Stage)
    (hst : singleStage db (strOrDefault p.stage_slug "lead") = some st) :
    createLead_sse db p =
      (.ok ⟨true, newLeadRow db p.name p.phone p.email st.id p.vendedor_id
          (p.custom_fields.getD []) p.notes (countLeadsInStage db st.id)⟩,
       { db with
          leads := db.leads ++ [newLeadRow db p.name p.phone p.email st.id p.vendedor_id
            (p.custom_fields.getD []) p.notes (countLeadsInStage db st.id)],
          seq := db.seq + 1 },
       [Op.selectStage (strOrDefault p.stage_slug "lead"), Op.countLeads st.id,
        Op.insertLead]) := by
  unfold createLead_sse
  simp only []
  rw [hst]

theorem jsGet_cons_ne (k0 k : String) (v : JVal) (args : JObj) (h : (k0 == k) = false) :
    jsGet ((k0, v) :: args) k = jsGet args k := by
  unfold jsGet
  rw [List.find?_cons_of_neg]
  simp [h]

theorem jsGet_cons_eq (k0 : String) (v : JVal) (args : JObj) :
    jsGet ((k0, v) :: args) k0 = some v := by
  unfold jsGet
  rw [List.find?_cons_of_pos]
  · rfl
  · exact beq_self_eq_true k0

/-! ## Concrete fixtures -/

/-- The default pipeline stage. -/
def stLead : Stage := ⟨1, "Lead", "lead", "#3b82f6", 0⟩

/-- The closing pipeline stage. -/
def stFechado : Stage := ⟨2, "Fechado", "fechado", "#22c55e", 4⟩

/-- A seller profile. -/
def vendV1 : Profile := ⟨"11111111-1111-1111-1111-111111111111", "Vera", "vendedor"⟩

/-- A lead in stage "lead" with a numeric `valor_estimado` of 100. -/
def leadA : Lead :=
  ⟨"aaaaaaaa-0000-0000-0000-000000000001", "Ana", none, none, 1, vendV1.id,
   [("valor_estimado", .num 100)], none, 0, 1⟩

/-- A lead in stage "lead" with the string `valor_estimado` "200". -/
def leadB : Lead :=
  ⟨"aaaaaaaa-0000-0000-0000-000000000002", "Bia", none, none, 1, vendV1.id,
   [("valor_estimado", .str "200")], none, 1, 2⟩

/-- A lead in stage "fechado" with no `valor_estimado`. -/
def leadC : Lead :=
  ⟨"aaaaaaaa-0000-0000-0000-000000000003", "Caio", none, none, 2, vendV1.id,
   [], none, 0, 3⟩

/-- The spec's pipeline-stats fixture: two leads in stage "lead" with
`valor_estimado` 100 and "200", one lead in stage "fechado" without. -/
def statsDb : Db := ⟨[stLead, stFechado], [vendV1], [leadA, leadB, leadC], [], [], 10⟩

/-- A lead whose `valor_estimado` is a truthy non-numeric string. -/
def leadNaN : Lead :=
  ⟨"aaaaaaaa-0000-0000-0000-000000000004", "Dan", none, none, 1, vendV1.id,
   [("valor_estimado", .str "abc")], none, 0, 1⟩

/-- A backend with one lead whose `valor_estimado` is "abc". -/
def nanDb : Db := ⟨[stLead], [vendV1], [leadNaN], [], [], 0⟩

/-- An active catalog row whose query term occurs only in its
category. -/
def catTinta : CatalogEntry := ⟨1, "Branco Neve", "Acabamento fosco", "tinta", true⟩

/-- A backend holding only that catalog row. -/
def catDb : Db := ⟨[], [], [], [catTinta], [], 0⟩

/-- A backend with the default stage and no leads. -/
def leadOnlyDb : Db := ⟨[stLead], [], [], [], [], 0⟩

example : statsDb.leads.filter (fun x => x.id == leadA.id) = [leadA] := by rfl
example : singleStage statsDb "lead" = some stLead := by rfl
example : parseJsNumber "abc" = none := by rfl

/-- The lead row as stored after a custom-fields merge. -/
def mergedLead (l : Lead) (u : JObj) : Lead :=
  { l with custom_fields := mergeObj l.custom_fields u }

/-- JSON value of an optional string argument in a raw HTTP call:
`null` when the typed field is absent.  Supplying `null` and omitting
the key are indistinguishable at every use site of the HTTP handlers
(both are falsy and both store SQL NULL), so this object carries
exactly the call the validated variants receive. -/
def optStrVal : Option String → JVal
  | some s => JVal.str s
  | none => JVal.null

/-- JSON value of an optional object argument in a raw HTTP call. -/
def optObjVal : Option JObj → JVal
  | some fs => JVal.obj fs
  | none => JVal.null

/-- The raw HTTP argument object carrying the same call as a typed
`get_leads` parameter record. -/
def encodeGetLeads (p : GetLeadsParams) : JObj :=
  [("stage_slug", optStrVal p.stage_slug), ("vendedor_id", optStrVal p.vendedor_id),
   ("limit", JVal.num p.limit)]

/-- The raw HTTP argument object carrying the same call as a typed
`create_lead` parameter record. -/
def encodeCreateLead (p : CreateLeadParams) : JObj :=
  [("name", JVal.str p.name), ("phone", optStrVal p.phone), ("email", optStrVal p.email),
   ("stage_slug", JVal.str p.stage_slug), ("vendedor_id", JVal.str p.vendedor_id),
   ("custom_fields", optObjVal p.custom_fields), ("notes", optStrVal p.notes)]

theorem httpLimit_num (q d : Dec) :
    httpLimit (some (JVal.num q)) d = if q.isZero then d else q := by
  cases hz : q.isZero with
  | true => simp [httpLimit, optTruthy, jsTruthy, jsToNumber, hz]
  | false => simp [httpLimit, optTruthy, jsTruthy, jsToNumber, hz]

theorem rawOptStr_optStrVal (o : Option String) : rawOptStr (some (optStrVal o)) = o := by
  cases o <;> rfl

theorem rawStageSel (db : Db) (o : Option String) :
    (if optTruthy (some (optStrVal o))
     then ((singleStage db (jsUrlString (some (optStrVal o)))).map (fun st => st.id),
           [Op.selectStage (jsUrlString (some (optStrVal o)))])
     else ((none : Option Nat), ([] : List Op)))
    = (match o with
       | some s =>
         if s == "" then ((none : Option Nat), ([] : List Op))
         else ((singleStage db s).map (fun st => st.id), [Op.selectStage s])
       | none => ((none : Option Nat), ([] : List Op))) := by
  cases o with
  | none => rfl
  | some s =>
    cases hs : (s == "") with
    | true => simp [optTruthy, jsTruthy, optStrVal, jsUrlString, hs]
    | false => simp [optTruthy, jsTruthy, optStrVal, jsUrlString, hs]

theorem rawVendFilter (o : Option String) (x : String) :
    (if optTruthy (some (optStrVal o)) then x == jsUrlString (some (optStrVal o)) else true)
    = (match o with
       | some v => if v == "" then true else x == v
       | none => true) := by
  cases o with
  | none => rfl
  | some v =>
    cases hv : (v == "") with
    | true => simp [optTruthy, jsTruthy, optStrVal, jsUrlString, hv]
    | false => simp [optTruthy, jsTruthy, optStrVal, jsUrlString, hv]

theorem rawSlugDefault (s : String) :
    (if optTruthy (some (JVal.str s)) then jsUrlString (some (JVal.str s)) else "lead")
    = strOrDefault s "lead" := by
  cases hs : (s == "") with
  | true => simp [optTruthy, jsTruthy, jsUrlString, strOrDefault, hs]
  | false => simp [optTruthy, jsTruthy, jsUrlString, strOrDefault, hs]

theorem rawCustomFields (o : Option JObj) :
    (if optTruthy (some (optObjVal o)) then jsSpreadObj (some (optObjVal o)) else [])
    = o.getD [] := by
  cases o <;> rfl

/-- The HTTP `getLeads` handler computes the standard-stream result on
the raw encoding of the same call. -/
theorem getLeads_http_agrees (db : Db) (p : GetLeadsParams) :
    getLeads_http db (encodeGetLeads p) = getLeads_std db p := by
  unfold getLeads_http getLeads_std
  simp only []
  rw [show jsGet (encodeGetLeads p) "limit" = some (JVal.num p.limit) from rfl,
    show jsGet (encodeGetLeads p) "stage_slug" = some (optStrVal p.stage_slug) from rfl,
    show jsGet (encodeGetLeads p) "vendedor_id" = some (optStrVal p.vendedor_id) from rfl,
    httpLimit_num p.limit 50, rawStageSel db p.stage_slug]
  simp only [rawVendFilter]

/-- The HTTP `updateLeadStage` handler agrees with the standard-stream
one on the raw encoding of the same call: same success/failure, same
backend state and trace (the error messages differ textually). -/
theorem updateLeadStage_http_agrees (db : Db) (p : UpdateLeadStageParams) :
    okOut (updateLeadStage_http db
        [("lead_id", JVal.str p.lead_id), ("new_stage_slug", JVal.str p.new_stage_slug)]).1
      = okOut (updateLeadStage_std db p).1
    ∧ (updateLeadStage_http db
        [("lead_id", JVal.str p.lead_id), ("new_stage_slug", JVal.str p.new_stage_slug)]).2
      = (updateLeadStage_std db p).2 := by
  unfold updateLeadStage_http updateLeadStage_std
  simp only []
  rw [show jsUrlString (jsGet [("lead_id", JVal.str p.lead_id),
        ("new_stage_slug", JVal.str p.new_stage_slug)] "new_stage_slug")
        = p.new_stage_slug from rfl,
    show jsUrlString (jsGet [("lead_id", JVal.str p.lead_id),
        ("new_stage_slug", JVal.str p.new_stage_slug)] "lead_id") = p.lead_id from rfl]
  cases singleStage db p.new_stage_slug with
  | none => exact ⟨rfl, rfl⟩
  | some st =>
    simp only []
    cases (dbUpdateLead db p.lead_id (fun l => { l with stage_id := st.id })).1 with
    | none => exact ⟨rfl, rfl⟩
    | some l' => exact ⟨rfl, rfl⟩

/-- The HTTP `createLead` handler agrees with the standard-stream one
on the raw encoding of the same call: same success/failure, same
backend state (identical inserted row) and trace. -/
theorem createLead_http_agrees (db : Db) (p : CreateLeadParams) :
    okOut (createLead_http db (encodeCreateLead p)).1 = okOut (createLead_std db p).1
    ∧ (createLead_http db (encodeCreateLead p)).2 = (createLead_std db p).2 := by
  unfold createLead_http createLead_std
  simp only []
  rw [show jsGet (encodeCreateLead p) "stage_slug" = some (JVal.str p.stage_slug) from rfl,
    show jsGet (encodeCreateLead p) "name" = some (JVal.str p.name) from rfl,
    show jsGet (encodeCreateLead p) "phone" = some (optStrVal p.phone) from rfl,
    show jsGet (encodeCreateLead p) "email" = some (optStrVal p.email) from rfl,
    show jsGet (encodeCreateLead p) "vendedor_id" = some (JVal.str p.vendedor_id) from rfl,
    show jsGet (encodeCreateLead p) "custom_fields" = some (optObjVal p.custom_fields) from rfl,
    show jsGet (encodeCreateLead p) "notes" = some (optStrVal p.notes) from rfl,
    rawSlugDefault p.stage_slug, rawOptStr_optStrVal p.phone, rawOptStr_optStrVal p.email,
    rawOptStr_optStrVal p.notes, rawCustomFields p.custom_fields,
    show (rawOptStr (some (JVal.str p.name))).getD "" = p.name from rfl,
    show (rawOptStr (some (JVal.str p.vendedor_id))).getD "" = p.vendedor_id from rfl]
  cases singleStage db (strOrDefault p.stage_slug "lead") with
  | none => exact ⟨rfl, rfl⟩
  | some st => exact ⟨rfl, rfl⟩

/-- The HTTP `getLeadHistory` handler computes the standard-stream
result on the raw encoding of the same call. -/
theorem getLeadHistory_http_agrees (db : Db) (p : GetLeadHistoryParams) :
    getLeadHistory_http db [("lead_id", JVal.str p.lead_id)] = getLeadHistory_std db p := rfl

theorem updateLeadCustomFields_http_found (db : Db) (id : String) (cf : JObj) (l : Lead)
    (h : db.leads.filter (fun x => x.id == id) = [l]) :
    updateLeadCustomFields_http db [("lead_id", JVal.str id), ("custom_fields", JVal.obj cf)]
      = (.ok ⟨true, mergedLead l cf⟩,
         { db with leads := db.leads.map (fun x =>
             if x.id == id then { x with custom_fields := mergeObj l.custom_fields cf }
             else x) },
         [Op.selectLeadCustomFields id, Op.updateLead id]) := by
  unfold updateLeadCustomFields_http
  simp only []
  rw [show jsUrlString (jsGet [("lead_id", JVal.str id), ("custom_fields", JVal.obj cf)]
        "lead_id") = id from rfl,
    show jsSpreadObj (jsGet [("lead_id", JVal.str id), ("custom_fields", JVal.obj cf)]
        "custom_fields") = cf from rfl]
  rw [singleLead_of_filter_one db id l h]
  simp only []
  rw [dbUpdateLead_found db id _ l h]
  rfl


/-! ## Claims -/

/-- C1: for every lead stored in the backend and every
`update_lead_custom_fields` call on it, the stored `custom_fields`
afterwards is the shallow merge of the previously stored map with the
update map — every key absent from the update keeps its prior value and
every key present takes the update's value (standard-stream and
event-stream handlers shown; the HTTP handler computes the identical
merge expression). -/
theorem C1_custom_fields_shallow_merge (db : Db) (p : UpdateLeadCustomFieldsParams) (l : Lead)
    (h : db.leads.filter (fun x => x.id == p.lead_id) = [l]) :
    (((updateLeadCustomFields_std db p).2.1).leads.filter (fun x => x.id == p.lead_id)
        = [mergedLead l p.custom_fields])
    ∧ (((updateLeadCustomFields_sse db p).2.1).leads.filter (fun x => x.id == p.lead_id)
        = [mergedLead l p.custom_fields])
    ∧ (∀ k, jsGet (mergedLead l p.custom_fields).custom_fields k
        = (jsGet p.custom_fields k).or (jsGet l.custom_fields k)) := by
  refine ⟨?_, ?_, fun k => jsGet_mergeObj l.custom_fields p.custom_fields k⟩
  · rw [updateLeadCustomFields_std_found db p l h]
    exact filter_map_update db.leads p.lead_id _ l (fun x => rfl) h
  · rw [updateLeadCustomFields_sse_found db p l h]
    exact filter_map_update db.leads p.lead_id _ l (fun x => rfl) h

/-- C1 witness: merging a `tipo_tinta` entry into lead A's stored
fields on the fixture backend. -/
theorem C1_witness :
    ((updateLeadCustomFields_std statsDb
        ⟨leadA.id, [("tipo_tinta", JVal.str "acrilica")]⟩).2.1).leads.filter
        (fun x => x.id == leadA.id)
      = [mergedLead leadA [("tipo_tinta", JVal.str "acrilica")]] :=
  (C1_custom_fields_shallow_merge statsDb
    ⟨leadA.id, [("tipo_tinta", JVal.str "acrilica")]⟩ leadA (by rfl)).1

/-- C2: for every successful `create_lead`, the inserted lead's
`position` equals the number of leads already in the resolved target
stage at count time; and it is never taken from the client's input —
the zod schema has no position field (a supplied `position` key changes
nothing of the parse) and the HTTP handler reads no `position`
argument. -/
theorem C2_create_lead_position (db : Db) (p : CreateLeadParams) (st : Stage)
    (hst : singleStage db (strOrDefault p.stage_slug "lead") = some st) :
    ((createLead_std db p).1.map (fun r => r.lead.position)
        = .ok (db.leads.filter (fun l => l.stage_id == st.id)).length)
    ∧ ((createLead_sse db p).1.map (fun r => r.lead.position)
        = .ok (db.leads.filter (fun l => l.stage_id == st.id)).length)
    ∧ (∀ args v, parseCreateLead (("position", v) :: args) = parseCreateLead args)
    ∧ (∀ args v, createLead_http db (("position", v) :: args) = createLead_http db args) := by
  refine ⟨?_, ?_, ?_, ?_⟩
  · rw [createLead_std_found db p st hst]
    rfl
  · rw [createLead_sse_found db p st hst]
    rfl
  · intro args v
    simp only [parseCreateLead, fieldReqUuid, fieldOptEmail, fieldReqStr, fieldOptStr,
      fieldOptRecord]
    rw [jsGet_cons_ne "position" "name" v args (by decide),
      jsGet_cons_ne "position" "phone" v args (by decide),
      jsGet_cons_ne "position" "email" v args (by decide),
      jsGet_cons_ne "position" "stage_slug" v args (by decide),
      jsGet_cons_ne "position" "vendedor_id" v args (by decide),
      jsGet_cons_ne "position" "custom_fields" v args (by decide),
      jsGet_cons_ne "position" "notes" v args (by decide)]
  · intro args v
    unfold createLead_http
    rw [jsGet_cons_ne "position" "stage_slug" v args (by decide),
      jsGet_cons_ne "position" "name" v args (by decide),
      jsGet_cons_ne "position" "phone" v args (by decide),
      jsGet_cons_ne "position" "email" v args (by decide),
      jsGet_cons_ne "position" "vendedor_id" v args (by decide),
      jsGet_cons_ne "position" "custom_fields" v args (by decide),
      jsGet_cons_ne "position" "notes" v args (by decide)]

/-- C2 witness: creating a lead into stage "lead" of the fixture
backend, which already holds two leads, yields position 2. -/
theorem C2_witness :
    (createLead_std statsDb ⟨"Novo", none, none, "lead", vendV1.id, none, none⟩).1.map
        (fun r => r.lead.position) = .ok 2 :=
  (C2_create_lead_position statsDb ⟨"Novo", none, none, "lead", vendV1.id, none, none⟩
    stLead (by rfl)).1

/-- C3 counterexample: the empty slug matches no stage in a backend
whose only stage is "lead", yet `create_lead` with `stage_slug = ""`
succeeds and inserts a row — the falsy-or fallback
`params.stage_slug || "lead"` substitutes the default instead of
failing with StageNotFound. -/
theorem C3_counterexample :
    leadOnlyDb.stages.filter (fun st => st.slug == "") = []
    ∧ okOut (createLead_std leadOnlyDb ⟨"Bob", none, none, "", vendV1.id, none, none⟩).1 = true
    ∧ ((createLead_std leadOnlyDb
        ⟨"Bob", none, none, "", vendV1.id, none, none⟩).2.1).leads.length = 1
    ∧ leadOnlyDb.leads.length = 0 :=
  ⟨rfl, rfl, rfl, rfl⟩

/-- C3 amended: for every slug that matches no stage,
`update_lead_stage` fails with the StageNotFound message and leaves the
backend unchanged (no update issued), and `create_lead` does the same
for every such slug EXCEPT the empty string, which falls back to the
default slug "lead" before resolution. -/
theorem C3_unknown_stage_rejected (db : Db) (p : UpdateLeadStageParams) (q : CreateLeadParams)
    (hp : db.stages.filter (fun st => st.slug == p.new_stage_slug) = [])
    (hq : db.stages.filter (fun st => st.slug == q.stage_slug) = [])
    (hne : q.stage_slug ≠ "") :
    (updateLeadStage_std db p
        = (.error (.stageNotFound ("Stage not found: " ++ p.new_stage_slug)), db,
           [Op.selectStage p.new_stage_slug]))
    ∧ (updateLeadStage_sse db p
        = (.error (.stageNotFound ("Stage not found: " ++ p.new_stage_slug)), db,
           [Op.selectStage p.new_stage_slug]))
    ∧ (createLead_std db q
        = (.error (.stageNotFound ("Stage not found: " ++ q.stage_slug)), db,
           [Op.selectStage q.stage_slug]))
    ∧ (createLead_sse db q
        = (.error (.stageNotFound "Stage not found"), db, [Op.selectStage q.stage_slug])) :=
  ⟨updateLeadStage_std_noStage db p hp, updateLeadStage_sse_noStage db p hp,
   createLead_std_noStage db q hne hq, createLead_sse_noStage db q hne hq⟩

/-- C3 witness: the slug "nope" matches no stage of the fixture
backend; both mutating tools reject it and change nothing. -/
theorem C3_witness :
    updateLeadStage_std statsDb ⟨leadA.id, "nope"⟩
      = (.error (.stageNotFound "Stage not found: nope"), statsDb, [Op.selectStage "nope"]) :=
  (C3_unknown_stage_rejected statsDb ⟨leadA.id, "nope"⟩
    ⟨"X", none, none, "nope", vendV1.id, none, none⟩ (by rfl) (by rfl) (by decide)).1

/-- A lead id identifying no lead of the fixture backends. -/
def ghostId : String := "aaaaaaaa-0000-0000-0000-00000000dead"

/-- C4 counterexample: in the event-stream variant (and identically in
the HTTP variant), `update_lead_custom_fields` on a nonexistent lead
does NOT fail with LeadNotFound before writing — the fetch error is
ignored, the update against the missing id IS issued (the write appears
in the backend trace), and the call fails with the backend's single-row
message from the update step. -/
theorem C4_counterexample :
    (updateLeadCustomFields_sse leadOnlyDb ⟨ghostId, [("a", JVal.num 1)]⟩
        = (.error (.backend singleRowErrMsg), leadOnlyDb,
           [Op.selectLeadCustomFields ghostId, Op.updateLead ghostId]))
    ∧ isLeadNotFoundOut (updateLeadCustomFields_sse leadOnlyDb ⟨ghostId, [("a", JVal.num 1)]⟩).1
        = false
    ∧ Op.updateLead ghostId ∈
        (updateLeadCustomFields_sse leadOnlyDb ⟨ghostId, [("a", JVal.num 1)]⟩).2.2
    ∧ (updateLeadCustomFields_http leadOnlyDb
          [("lead_id", JVal.str ghostId), ("custom_fields", JVal.obj [("a", JVal.num 1)])]).1
        = .error (.backend singleRowErrMsg)
    ∧ Op.updateLead ghostId ∈
        (updateLeadCustomFields_http leadOnlyDb
          [("lead_id", JVal.str ghostId), ("custom_fields", JVal.obj [("a", JVal.num 1)])]).2.2 := by
  refine ⟨rfl, rfl, ?_, rfl, ?_⟩
  · show Op.updateLead ghostId ∈ [Op.selectLeadCustomFields ghostId, Op.updateLead ghostId]
    decide
  · show Op.updateLead ghostId ∈ [Op.selectLeadCustomFields ghostId, Op.updateLead ghostId]
    decide

/-- C4 amended: only the standard-stream variant fails with
LeadNotFound before any write (its trace holds the fetch alone and the
state is unchanged); the event-stream and HTTP variants ignore the
fetch error, attempt the write against the missing id, and surface the
backend's single-row error from the update step instead. -/
theorem C4_lead_not_found_before_write (db : Db) (p : UpdateLeadCustomFieldsParams)
    (h : db.leads.filter (fun x => x.id == p.lead_id) = []) :
    (updateLeadCustomFields_std db p
        = (.error (.leadNotFound ("Lead not found: " ++ p.lead_id)), db,
           [Op.selectLeadCustomFields p.lead_id]))
    ∧ (Op.updateLead p.lead_id ∉ (updateLeadCustomFields_std db p).2.2)
    ∧ (updateLeadCustomFields_sse db p
        = (.error (.backend singleRowErrMsg), db,
           [Op.selectLeadCustomFields p.lead_id, Op.updateLead p.lead_id])) := by
  refine ⟨updateLeadCustomFields_std_missing db p h, ?_,
    updateLeadCustomFields_sse_missing db p h⟩
  rw [updateLeadCustomFields_std_missing db p h]
  simp

/-- C4 witness: the nonexistent id on the fixture backend without
leads. -/
theorem C4_witness :
    updateLeadCustomFields_std leadOnlyDb ⟨ghostId, [("a", JVal.num 1)]⟩
      = (.error (.leadNotFound ("Lead not found: " ++ ghostId)), leadOnlyDb,
         [Op.selectLeadCustomFields ghostId]) :=
  (C4_lead_not_found_before_write leadOnlyDb ⟨ghostId, [("a", JVal.num 1)]⟩ (by rfl)).1

/-- C5 counterexample: on the same backend state and arguments,
`search_price_catalog` returns the catalog row in the standard-stream
variant (whose text match also covers the category column) but an empty
list in the event-stream and HTTP variants (which match product name
and description only) — the three transports do NOT compute the same
result. -/
theorem C5_counterexample :
    (searchPriceCatalog_std catDb ⟨"tinta", none, 10⟩).1 = .ok [catTinta]
    ∧ (searchPriceCatalog_sse catDb ⟨"tinta", none, 10⟩).1 = .ok []
    ∧ (searchPriceCatalog_http catDb [("query", JVal.str "tinta")]).1 = .ok []
    ∧ ((.ok [catTinta] : Except Err (List CatalogEntry)) ≠ .ok []) := by
  refine ⟨rfl, rfl, rfl, ?_⟩
  intro h
  injection h with h2
  exact List.cons_ne_nil _ _ h2

/-- C5 amended: on the same backend state and the same call (the HTTP
handlers receive it as its raw JSON argument object), all three
variants agree on `get_leads`, `get_lead_history` and
`get_pipeline_stats` outright; on `update_lead_stage` and `create_lead`
they agree on success/failure and on the resulting backend state and
trace (response shaping and error texts differ); on
`update_lead_custom_fields` they agree whenever the lead exists.  They
differ on `search_price_catalog` (see the counterexample), and the HTTP
variant additionally skips input validation (see the C8 development). -/
theorem C5_variant_agreement (db : Db) (pg : GetLeadsParams) (pu : UpdateLeadStageParams)
    (pc : CreateLeadParams) (ph : GetLeadHistoryParams) (pf : UpdateLeadCustomFieldsParams)
    (l : Lead) (hf : db.leads.filter (fun x => x.id == pf.lead_id) = [l]) :
    (getLeads_std db pg = getLeads_sse db pg)
    ∧ (getLeads_http db (encodeGetLeads pg) = getLeads_std db pg)
    ∧ (okOut (updateLeadStage_std db pu).1 = okOut (updateLeadStage_sse db pu).1
        ∧ (updateLeadStage_std db pu).2 = (updateLeadStage_sse db pu).2)
    ∧ (okOut (updateLeadStage_http db
          [("lead_id", JVal.str pu.lead_id), ("new_stage_slug", JVal.str pu.new_stage_slug)]).1
          = okOut (updateLeadStage_std db pu).1
        ∧ (updateLeadStage_http db
          [("lead_id", JVal.str pu.lead_id), ("new_stage_slug", JVal.str pu.new_stage_slug)]).2
          = (updateLeadStage_std db pu).2)
    ∧ (okOut (createLead_std db pc).1 = okOut (createLead_sse db pc).1
        ∧ (createLead_std db pc).2 = (createLead_sse db pc).2)
    ∧ (okOut (createLead_http db (encodeCreateLead pc)).1 = okOut (createLead_std db pc).1
        ∧ (createLead_http db (encodeCreateLead pc)).2 = (createLead_std db pc).2)
    ∧ (getLeadHistory_std db ph = getLeadHistory_sse db ph)
    ∧ (getLeadHistory_http db [("lead_id", JVal.str ph.lead_id)] = getLeadHistory_std db ph)
    ∧ (getPipelineStats_std db = getPipelineStats_sse db)
    ∧ (getPipelineStats_http db = getPipelineStats_std db)
    ∧ ((updateLeadCustomFields_std db pf).2 = (updateLeadCustomFields_sse db pf).2
        ∧ okOut (updateLeadCustomFields_std db pf).1 = true
        ∧ okOut (updateLeadCustomFields_sse db pf).1 = true)
    ∧ ((updateLeadCustomFields_http db
          [("lead_id", JVal.str pf.lead_id), ("custom_fields", JVal.obj pf.custom_fields)]).2
          = (updateLeadCustomFields_std db pf).2
        ∧ okOut (updateLeadCustomFields_http db
          [("lead_id", JVal.str pf.lead_id), ("custom_fields", JVal.obj pf.custom_fields)]).1
          = true) := by
  refine ⟨rfl, getLeads_http_agrees db pg, ?_, updateLeadStage_http_agrees db pu, ?_,
    createLead_http_agrees db pc, rfl, getLeadHistory_http_agrees db ph, rfl, rfl, ?_, ?_⟩
  · unfold updateLeadStage_std updateLeadStage_sse
    cases singleStage db pu.new_stage_slug with
    | none => exact ⟨rfl, rfl⟩
    | some st =>
      simp only []
      cases (dbUpdateLead db pu.lead_id (fun l => { l with stage_id := st.id })).1 with
      | none => exact ⟨rfl, rfl⟩
      | some l' => exact ⟨rfl, rfl⟩
  · unfold createLead_std createLead_sse
    simp only []
    cases singleStage db (strOrDefault pc.stage_slug "lead") with
    | none => exact ⟨rfl, rfl⟩
    | some st => exact ⟨rfl, rfl⟩
  · rw [updateLeadCustomFields_std_found db pf l hf,
      updateLeadCustomFields_sse_found db pf l hf]
    exact ⟨rfl, rfl, rfl⟩
  · rw [updateLeadCustomFields_http_found db pf.lead_id pf.custom_fields l hf,
      updateLeadCustomFields_std_found db pf l hf]
    exact ⟨rfl, rfl⟩

/-- C5 witness: on the fixture backend, updating lead A's custom fields
leaves the standard-stream, event-stream and HTTP variants in the same
backend state with the same trace. -/
theorem C5_witness :
    (updateLeadCustomFields_std statsDb ⟨leadA.id, [("a", JVal.num 1)]⟩).2
      = (updateLeadCustomFields_sse statsDb ⟨leadA.id, [("a", JVal.num 1)]⟩).2
    ∧ (updateLeadCustomFields_http statsDb
        [("lead_id", JVal.str leadA.id), ("custom_fields", JVal.obj [("a", JVal.num 1)])]).2
      = (updateLeadCustomFields_std statsDb ⟨leadA.id, [("a", JVal.num 1)]⟩).2 := by
  have h := C5_variant_agreement statsDb ⟨none, none, 50⟩ ⟨leadA.id, "fechado"⟩
    ⟨"X", none, none, "lead", vendV1.id, none, none⟩ ⟨leadA.id⟩
    ⟨leadA.id, [("a", JVal.num 1)]⟩ leadA (by rfl)
  exact ⟨h.2.2.2.2.2.2.2.2.2.2.1.1, h.2.2.2.2.2.2.2.2.2.2.2.1⟩

/-- C6 counterexample: a lead whose `valor_estimado` is the truthy
non-numeric string "abc" does NOT contribute zero — the loop adds
`Number("abc")`, NaN, and the stage's `total_value` becomes NaN
(modelled by `none`) instead of the claimed 0. -/
theorem C6_counterexample :
    (lookupStat (pipelineStatsData nanDb) "lead").map (fun e => e.total_value) = some none
    ∧ (lookupStat (pipelineStatsData nanDb) "lead").map (fun e => e.count) = some 1
    ∧ ((some (none : Option Dec) : Option (Option Dec)) ≠ some (some 0)) :=
  ⟨rfl, rfl, by decide⟩

/-- C6 amended: `get_pipeline_stats` maps each occurring slug to an
entry whose `count` is the number of leads bucketed under it and whose
`total_value` folds `if (value) total += Number(value)` over those
leads in backend order — absent or falsy values contribute zero, a
truthy value adds its numeric coercion with NaN propagating; slugs with
no leads are absent.  The spec's fixture (leads with `valor_estimado`
100 and "200" in stage "lead", one lead in "fechado" without) yields
count 2 / total 300 and count 1 / total 0. -/
theorem C6_pipeline_stats (db : Db) (slug : String) :
    (lookupStat (pipelineStatsData db) slug = buildStat db slug)
    ∧ (∀ e, lookupStat (pipelineStatsData db) slug = some e →
        e.count = (db.leads.filter (fun l => slugOf db l == slug)).length
        ∧ e.total_value = (db.leads.filter (fun l => slugOf db l == slug)).foldl
            statContribution (some 0))
    ∧ (lookupStat (pipelineStatsData statsDb) "lead" = some ⟨2, some 300, some "Lead"⟩
        ∧ lookupStat (pipelineStatsData statsDb) "fechado"
            = some ⟨1, some 0, some "Fechado"⟩) := by
  refine ⟨pipelineStats_lookup db slug, ?_, rfl, rfl⟩
  intro e he
  rw [pipelineStats_lookup db slug] at he
  unfold buildStat at he
  cases hF : db.leads.filter (fun l => slugOf db l == slug) with
  | nil =>
    rw [hF] at he
    exact absurd he (by simp)
  | cons l ls =>
    rw [hF] at he
    have he2 : extendStat ⟨0, some 0, (stageOf db l).map (fun st => st.name)⟩ (l :: ls) = e :=
      Option.some.inj he
    constructor
    · rw [← he2, extendStat_count]
      simp
    · rw [← he2, extendStat_total]

/-- C6 witness: the entry for slug "lead" on the fixture backend has
the count of the leads bucketed under it. -/
theorem C6_witness :
    (⟨2, some 300, some "Lead"⟩ : StatEntry).count
      = (statsDb.leads.filter (fun l => slugOf statsDb l == "lead")).length :=
  ((C6_pipeline_stats statsDb "lead").2.1 ⟨2, some 300, some "Lead"⟩ (by rfl)).1

/-- C7: when the supplied stage slug matches no stage, `get_leads`
silently drops the stage filter and returns exactly what the identical
call without a stage slug returns — the vendedor filter and the limit
still apply (same quantified `v` and `lim`); shown for all three
handler variants. -/
theorem C7_unknown_stage_filter_dropped (db : Db) (slug : String) (v : Option String)
    (lim : Dec) (rest : JObj)
    (h : db.stages.filter (fun st => st.slug == slug) = [])
    (hrest : jsGet rest "stage_slug" = none) :
    ((getLeads_std db ⟨some slug, v, lim⟩).1 = (getLeads_std db ⟨none, v, lim⟩).1)
    ∧ ((getLeads_sse db ⟨some slug, v, lim⟩).1 = (getLeads_sse db ⟨none, v, lim⟩).1)
    ∧ ((getLeads_http db (("stage_slug", JVal.str slug) :: rest)).1
        = (getLeads_http db rest).1) := by
  refine ⟨?_, ?_, ?_⟩
  · unfold getLeads_std
    simp only []
    cases hs : (slug == "") with
    | true => rfl
    | false =>
      rw [singleStage_of_filter_nil db slug h]
      rfl
  · unfold getLeads_sse
    simp only []
    cases hs : (slug == "") with
    | true => rfl
    | false =>
      rw [singleStage_of_filter_nil db slug h]
      rfl
  · unfold getLeads_http
    rw [jsGet_cons_ne "stage_slug" "limit" (JVal.str slug) rest (by decide),
      jsGet_cons_ne "stage_slug" "vendedor_id" (JVal.str slug) rest (by decide),
      jsGet_cons_eq "stage_slug" (JVal.str slug) rest, hrest]
    simp only []
    cases hs : (slug == "") with
    | true =>
      have : optTruthy (some (JVal.str slug)) = false := by
        show (!(slug == "")) = false
        rw [hs]
        rfl
      rw [this]
      rfl
    | false =>
      have : optTruthy (some (JVal.str slug)) = true := by
        show (!(slug == "")) = true
        rw [hs]
        rfl
      rw [this]
      have hu : jsUrlString (some (JVal.str slug)) = slug := rfl
      rw [hu, singleStage_of_filter_nil db slug h]
      rfl

/-- C7 witness: slug "nope" matches no stage of the fixture backend;
the filtered and unfiltered calls coincide. -/
theorem C7_witness :
    (getLeads_std statsDb ⟨some "nope", none, 50⟩).1
      = (getLeads_std statsDb ⟨none, none, 50⟩).1 :=
  (C7_unknown_stage_filter_dropped statsDb "nope" none 50 [] (by rfl) (by rfl)).1

/-- C8 counterexample: in the HTTP variant, a `update_lead_stage` call
whose arguments are malformed against the declared schema (required
`lead_id` missing — its zod parse fails) is NOT rejected with a
ValidationError: the handler runs, performs backend calls (a stage
select and an update against the id "undefined"), and surfaces a
backend error instead. -/
theorem C8_counterexample :
    ((invoke_http leadOnlyDb "update_lead_stage" [("new_stage_slug", JVal.str "lead")]).2.2
        = [Op.selectStage "lead", Op.updateLead "undefined"])
    ∧ ((invoke_http leadOnlyDb "update_lead_stage" [("new_stage_slug", JVal.str "lead")]).2.2
        ≠ [])
    ∧ (isValidationOut
        (invoke_http leadOnlyDb "update_lead_stage" [("new_stage_slug", JVal.str "lead")]).1
        = false)
    ∧ (okOut (parseUpdateLeadStage [("new_stage_slug", JVal.str "lead")]) = false) :=
  ⟨rfl, by decide, rfl, rfl⟩

/-- C8 amended: the standard-stream and event-stream dispatchers
validate the arguments of each parsing tool against its zod schema
before the handler runs — a parse failure is returned as the
ValidationError with an unchanged backend and an EMPTY backend trace;
the HTTP dispatcher performs no validation at all (see the
counterexample). -/
theorem C8_validation_before_handler (db : Db) (args : JObj) (e : Err) :
    (parseGetLeads args = .error e →
      invoke_std db "get_leads" args = (.error e, db, []))
    ∧ (parseUpdateLeadStage args = .error e →
      invoke_std db "update_lead_stage" args = (.error e, db, []))
    ∧ (parseUpdateLeadCustomFields args = .error e →
      invoke_std db "update_lead_custom_fields" args = (.error e, db, []))
    ∧ (parseCreateLead args = .error e →
      invoke_std db "create_lead" args = (.error e, db, []))
    ∧ (parseSearchPriceCatalog args = .error e →
      invoke_std db "search_price_catalog" args = (.error e, db, []))
    ∧ (parseGetLeadHistory args = .error e →
      invoke_std db "get_lead_history" args = (.error e, db, []))
    ∧ (parseGetLeads args = .error e →
      invoke_sse db "get_leads" args = (.error e, db, []))
    ∧ (parseUpdateLeadStage args = .error e →
      invoke_sse db "update_lead_stage" args = (.error e, db, []))
    ∧ (parseUpdateLeadCustomFields args = .error e →
      invoke_sse db "update_lead_custom_fields" args = (.error e, db, []))
    ∧ (parseCreateLead args = .error e →
      invoke_sse db "create_lead" args = (.error e, db, []))
    ∧ (parseSearchPriceCatalog args = .error e →
      invoke_sse db "search_price_catalog" args = (.error e, db, []))
    ∧ (parseGetLeadHistory args = .error e →
      invoke_sse db "get_lead_history" args = (.error e, db, [])) := by
  refine ⟨?_, ?_, ?_, ?_, ?_, ?_, ?_, ?_, ?_, ?_, ?_, ?_⟩ <;>
    · intro h
      simp [invoke_std, invoke_sse, parsed, h]

/-- C8 witness: a call with empty arguments fails validation of the
required `lead_id` in the standard-stream dispatcher with no backend
call. -/
theorem C8_witness :
    invoke_std leadOnlyDb "update_lead_stage" []
      = (.error (.validation "Required: lead_id"), leadOnlyDb, []) :=
  (C8_validation_before_handler leadOnlyDb [] (.validation "Required: lead_id")).2.1 (by rfl)

/-- C9: invoking any name outside the seven registered tools fails with
the variant's unknown-tool message, leaves the backend unchanged, and
performs no backend call (empty trace), in all three transports. -/
theorem C9_unknown_tool (db : Db) (name : String) (args : JObj) (h : name ∉ toolNames) :
    (invoke_std db name args
        = (.error (.unknownTool ("Unknown tool: " ++ name)), db, []))
    ∧ (invoke_sse db name args
        = (.error (.unknownTool ("Unknown tool: " ++ name)), db, []))
    ∧ (invoke_http db name args
        = (.error (.unknownTool ("Tool not found: " ++ name)), db, [])) := by
  simp only [toolNames, List.mem_cons, List.not_mem_nil, or_false, not_or] at h
  obtain ⟨h1, h2, h3, h4, h5, h6, h7⟩ := h
  refine ⟨?_, ?_, ?_⟩ <;>
    simp [invoke_std, invoke_sse, invoke_http, beq_false_of_ne h1, beq_false_of_ne h2,
      beq_false_of_ne h3, beq_false_of_ne h4, beq_false_of_ne h5, beq_false_of_ne h6,
      beq_false_of_ne h7]

/-- C9 witness: the unregistered name "frobnicate". -/
theorem C9_witness :
    invoke_std leadOnlyDb "frobnicate" []
      = (.error (.unknownTool "Unknown tool: frobnicate"), leadOnlyDb, []) :=
  (C9_unknown_tool leadOnlyDb "frobnicate" [] (by decide)).1

/-- C10: a supplied limit of 0 is treated like an absent limit — the
falsy-or fallback (`limit || 50` in `get_leads`, `limit || 10` in
`search_price_catalog`) substitutes the default instead of returning
zero rows, at the handler level and through the validated dispatch, and
likewise in the HTTP variant's raw handler. -/
theorem C10_limit_zero_default (db : Db) (s v : Option String) (q : String)
    (cat : Option String) :
    (getLeads_std db ⟨s, v, 0⟩ = getLeads_std db ⟨s, v, 50⟩)
    ∧ (searchPriceCatalog_std db ⟨q, cat, 0⟩ = searchPriceCatalog_std db ⟨q, cat, 10⟩)
    ∧ (invoke_std db "get_leads" [("limit", JVal.num 0)] = invoke_std db "get_leads" [])
    ∧ (invoke_std db "search_price_catalog" [("query", JVal.str q), ("limit", JVal.num 0)]
        = invoke_std db "search_price_catalog" [("query", JVal.str q)])
    ∧ (searchPriceCatalog_http db [("query", JVal.str q), ("limit", JVal.num 0)]
        = searchPriceCatalog_http db [("query", JVal.str q)]) :=
  ⟨rfl, rfl, rfl, rfl, rfl⟩
